import Mathlib

/-!
Shallow embedding of the ETL-Proyect Cyberday core:
`src/core/simulator.py` (CyberdaySimulator), `src/core/analytics.py`
(CyberdayAnalytics) and `src/etl/load.py` (load_carts_to_redis).

Python ints are modelled as `Int`, floats coming from prices/revenues as `ℚ`,
timestamps as `Nat` seconds.  The global `random` module is modelled as a list
of natural-number draws consumed in the order the code calls it; each call
interprets one draw into the range the code requests.
-/

namespace Cyberday

/-- A catalog product as stored in MongoDB (fields used by the simulator). -/
structure Product where
  product_id : String
  product_name : String
  category : String
  discounted_price : ℚ
  stock : Int
deriving DecidableEq, Repr, Inhabited

/-- The five event type strings emitted by `simulate_cyberday`. -/
inductive EventType where
  | add
  | checkout
  | partial_checkout
  | abandon
  | stock_out
deriving DecidableEq, Repr, Inhabited

/-- One simulated cart event (the dict built at simulator.py lines 166-180).
`event_time` is an absolute timestamp in seconds. -/
structure Event where
  cart_id : Nat
  customer_id : Int
  event_time : Nat
  event_type : EventType
  product_id : String
  product_name : String
  category : String
  quantity : Int
  price : ℚ
  stock_before : Int
  stock_after : Int
  revenue : ℚ
  lost_revenue : ℚ
deriving DecidableEq, Repr, Inhabited

/-- The per-product stock-out record (simulator.py lines 107-112). -/
structure StockOutInfo where
  time : Nat
  duration_seconds : Nat
  product_name : String
  category : String
deriving DecidableEq, Repr

/-- Pop one draw from the random stream (0 when exhausted; the concrete runs
used in this file never exhaust their stream). -/
def takeDraw : List Nat → Nat × List Nat
  | [] => (0, [])
  | n :: rest => (n, rest)

/-- Model of `random.randint(a, b)` (inclusive bounds): the draw is reduced
into the interval `[a, b]`. -/
def interpRandint (a b : Int) (n : Nat) : Int :=
  a + (n : Int) % (b - a + 1)

/-- Model of `random.choice` over a list of length `len`: the draw picks an
index. -/
def interpChoiceIdx (len : Nat) (n : Nat) : Nat :=
  n % len

/-- Model of `random.choices(['checkout','add','abandon'], weights=[0.6,0.3,0.1])`:
the draw is reduced mod 10 and mapped according to the weights. -/
def interpAction (n : Nat) : EventType :=
  if n % 10 < 6 then EventType.checkout
  else if n % 10 < 9 then EventType.add
  else EventType.abandon

/-- Model of `random.random() > 0.7` (30% chance of a new cart). -/
def interpNewCart (n : Nat) : Bool :=
  n % 10 ≥ 7

/-- State threaded through the simulation loop of `simulate_cyberday`. -/
structure SimState where
  rng : List Nat
  time : Nat
  cart_id : Nat
  stock : String → Int
  events : List Event
  stockOuts : List (String × StockOutInfo)

/-- `stock_tracker[product['product_id']] = product['stock']` for every catalog
product, over the default of 0 used by `stock_tracker.get(product_id, 0)`. -/
def initStock (products : List Product) : String → Int :=
  products.foldl (fun f p => Function.update f p.product_id p.stock) (fun _ => 0)

/-- Association-list lookup, mirroring Python's `k in d` / `d[k]` on the
insertion-ordered dicts the code uses. -/
def alistLookup {α : Type} (l : List (String × α)) (k : String) : Option α :=
  match l.find? (fun kv => kv.1 = k) with
  | some kv => some kv.2
  | none => none

/-- Simulation parameters: `num_customers`, `num_events`, the catalog, and the
run start time `simulation_start` (seconds). -/
structure SimConfig where
  num_customers : Int
  products : List Product
  start : Nat

/-- Outcome of the stock branch at lines 97-163: the event type, the recorded
`stock_before`/`stock_after`, `revenue`, `lost_revenue`, the updated stock
tracker and stock-out dict, and the remaining random stream. -/
structure BranchOut where
  event_type : EventType
  stock_before : Int
  stock_after : Int
  revenue : ℚ
  lost_revenue : ℚ
  stock : String → Int
  stockOuts : List (String × StockOutInfo)
  rng : List Nat

/-- `if product_id not in stock_out_times: stock_out_times[product_id] = {...}`
(simulator.py lines 106-112 and 128-134). -/
def recordStockOut (start : Nat) (sos : List (String × StockOutInfo))
    (product_id product_name category : String) (current_time : Nat) :
    List (String × StockOutInfo) :=
  if (alistLookup sos product_id).isSome then sos
  else (product_id,
        { time := current_time
          duration_seconds := current_time - start
          product_name := product_name
          category := category }) :: sos

/-- The stock branch of the event loop (simulator.py lines 97-163). -/
def stockBranch (cfg : SimConfig) (st : SimState) (product : Product)
    (quantity : Int) (current_time : Nat) (rng : List Nat) : BranchOut :=
  let product_id := product.product_id
  let price := product.discounted_price
  let available_stock := st.stock product_id
  if available_stock ≤ 0 then
    { event_type := EventType.stock_out
      stock_before := 0
      stock_after := 0
      revenue := 0
      lost_revenue := price * quantity
      stock := st.stock
      stockOuts := recordStockOut cfg.start st.stockOuts product_id
        product.product_name product.category current_time
      rng := rng }
  else if available_stock < quantity then
    let quantity_sold := available_stock
    let quantity_lost := quantity - available_stock
    { event_type := EventType.partial_checkout
      stock_before := available_stock
      stock_after := 0
      revenue := price * quantity_sold
      lost_revenue := price * quantity_lost
      stock := Function.update st.stock product_id 0
      stockOuts := recordStockOut cfg.start st.stockOuts product_id
        product.product_name product.category current_time
      rng := rng }
  else
    let (aDraw, rng) := takeDraw rng
    match interpAction aDraw with
    | EventType.checkout =>
        { event_type := EventType.checkout
          stock_before := available_stock
          stock_after := available_stock - quantity
          revenue := price * quantity
          lost_revenue := 0
          stock := Function.update st.stock product_id
            (available_stock - quantity)
          stockOuts := st.stockOuts
          rng := rng }
    | EventType.add =>
        { event_type := EventType.add
          stock_before := available_stock
          stock_after := available_stock
          revenue := 0
          lost_revenue := 0
          stock := st.stock
          stockOuts := st.stockOuts
          rng := rng }
    | _ =>
        { event_type := EventType.abandon
          stock_before := available_stock
          stock_after := available_stock
          revenue := 0
          lost_revenue := 0
          stock := st.stock
          stockOuts := st.stockOuts
          rng := rng }

/-- Build the event dict (lines 166-180), append it, and advance the cart id
(lines 182-186). -/
def finishStep (st : SimState) (customer_id : Int) (product : Product)
    (quantity : Int) (current_time : Nat) (b : BranchOut) : SimState :=
  let event : Event :=
    { cart_id := st.cart_id
      customer_id := customer_id
      event_time := current_time
      event_type := b.event_type
      product_id := product.product_id
      product_name := product.product_name
      category := product.category
      quantity := quantity
      price := product.discounted_price
      stock_before := b.stock_before
      stock_after := b.stock_after
      revenue := b.revenue
      lost_revenue := b.lost_revenue }
  let (ncDraw, rng) := takeDraw b.rng
  let cart_id := if interpNewCart ncDraw then st.cart_id + 1 else st.cart_id
  { rng := rng
    time := current_time
    cart_id := cart_id
    stock := b.stock
    events := st.events ++ [event]
    stockOuts := b.stockOuts }

/-- One iteration of the event loop (simulator.py lines 76-186). -/
def simStep (cfg : SimConfig) (st : SimState) : SimState :=
  let (cDraw, rng) := takeDraw st.rng
  let customer_id := interpRandint 1 cfg.num_customers cDraw
  let (pDraw, rng) := takeDraw rng
  let product := cfg.products.getD (interpChoiceIdx cfg.products.length pDraw) default
  let (qDraw, rng) := takeDraw rng
  let quantity := interpRandint 1 5 qDraw
  let (tDraw, rng) := takeDraw rng
  let current_time := st.time + (interpRandint 1 10 tDraw).toNat
  finishStep st customer_id product quantity current_time
    (stockBranch cfg st product quantity current_time rng)

/-- Run `n` iterations of the event loop. -/
def runSim (cfg : SimConfig) : Nat → SimState → SimState
  | 0, st => st
  | n + 1, st => runSim cfg n (simStep cfg st)

/-- Initial state of `simulate_cyberday` (lines 63-74): empty event list,
`cart_id = 1`, stock from the catalog, clock at `simulation_start`. -/
def initState (cfg : SimConfig) (rng : List Nat) : SimState :=
  { rng := rng
    time := cfg.start
    cart_id := 1
    stock := initStock cfg.products
    events := []
    stockOuts := [] }

/-- `simulate_cyberday`: `None` when the catalog is empty (the
`load_products_from_mongo` guard), otherwise the final loop state. -/
def simulate_cyberday (cfg : SimConfig) (num_events : Nat) (rng : List Nat) :
    Option SimState :=
  if cfg.products.isEmpty then none
  else some (runSim cfg num_events (initState cfg rng))

/-! ## Redis persistence (`_save_events_to_redis`, `_save_stock_out_times_to_redis`,
and `load_carts_to_redis` from `src/etl/load.py`) -/

/-- A cart record as written by `_save_events_to_redis` (the field names
`total_revenue` and `lost_revenue` match the hash fields at lines 261-262). -/
structure CartRecord where
  customer_id : Int
  events : List Event
  total_revenue : ℚ
  lost_revenue : ℚ
deriving DecidableEq, Repr

/-- An event as re-serialized by `load_carts_to_redis` (load.py lines 161-170:
it keeps fewer fields than the simulator's event dict). -/
structure LoadEvent where
  event_time : Nat
  event_type : EventType
  product_id : String
  quantity : Int
  stock_before : Int
  stock_after : Int
  revenue : ℚ
  lost_revenue : ℚ
deriving DecidableEq, Repr

/-- Projection of a cart-event row to the fields `load_carts_to_redis` stores. -/
def mkLoadEvent (e : Event) : LoadEvent :=
  { event_time := e.event_time
    event_type := e.event_type
    product_id := e.product_id
    quantity := e.quantity
    stock_before := e.stock_before
    stock_after := e.stock_after
    revenue := e.revenue
    lost_revenue := e.lost_revenue }

/-- A cart record as built by `load_carts_to_redis` (load.py lines 152-175). -/
structure LoadCart where
  customer_id : Int
  events : List LoadEvent
  total_revenue : ℚ
  lost_revenue : ℚ
deriving DecidableEq, Repr

/-- Keys of the Redis database: `cart:<cart_id>` and `stock_out:<product_id>`. -/
inductive RKey where
  | cart (id : Nat)
  | stockOut (pid : String)
deriving DecidableEq, Repr

/-- Values held in the Redis database. -/
inductive RVal where
  | cartRec (r : CartRecord)
  | loadCartRec (r : LoadCart)
  | soRec (i : StockOutInfo)
deriving DecidableEq, Repr

/-- The Redis key-value database. -/
def Store := RKey → Option RVal

/-- `hset key mapping` on the store. -/
def storeSet (s : Store) (k : RKey) (v : RVal) : Store :=
  Function.update s k (some v)

/-- `flushdb`. -/
def flushdb (_ : Store) : Store := fun _ => none

/-- `df['cart_id'].unique()`: cart ids in order of first appearance. -/
def firstSeen : List Nat → List Nat
  | [] => []
  | c :: rest => c :: (firstSeen rest).filter (fun x => x ≠ c)

/-- The per-cart loop body of `_save_events_to_redis` (lines 233-253): one pass
over the group building the serialized list and both running totals. -/
def cartGroupFold (grp : List Event) : List Event × ℚ × ℚ :=
  grp.foldl (fun acc e =>
    (acc.1 ++ [e], acc.2.1 + e.revenue, acc.2.2 + e.lost_revenue)) ([], 0, 0)

/-- The record `_save_events_to_redis` writes for one cart group. -/
def mkCartRecord (grp : List Event) : CartRecord :=
  let folded := cartGroupFold grp
  { customer_id := (grp.headD default).customer_id
    events := folded.1
    total_revenue := folded.2.1
    lost_revenue := folded.2.2 }

/-- `_save_events_to_redis` (simulator.py lines 219-267): flush the database,
then write one `cart:<cart_id>` record per cart group. -/
def save_events_to_redis (prior : Store) (events : List Event) : Store :=
  (firstSeen (events.map (·.cart_id))).foldl
    (fun s cid =>
      storeSet s (RKey.cart cid)
        (RVal.cartRec (mkCartRecord (events.filter (fun e => e.cart_id = cid)))))
    (flushdb prior)

/-- `_save_stock_out_times_to_redis` (simulator.py lines 198-217): one
`stock_out:<product_id>` write per record, no flush. -/
def save_stock_out_times_to_redis (prior : Store)
    (sos : List (String × StockOutInfo)) : Store :=
  sos.foldl (fun s kv => storeSet s (RKey.stockOut kv.1) (RVal.soRec kv.2)) prior

/-- The persistence sequence of `simulate_cyberday` (lines 192-194): carts
first (with the flush), stock-out records second. -/
def persistRun (prior : Store) (st : SimState) : Store :=
  save_stock_out_times_to_redis (save_events_to_redis prior st.events) st.stockOuts

/-- The empty Redis database. -/
def emptyStore : Store := fun _ => none

/-- Update the entry of key `k` in an association list (keys unchanged). -/
def updateAssoc (l : List (Nat × LoadCart)) (k : Nat) (f : LoadCart → LoadCart) :
    List (Nat × LoadCart) :=
  l.map (fun kv => if kv.1 = k then (k, f kv.2) else kv)

/-- One row of the cart-building loop of `load_carts_to_redis` (load.py lines
148-175): initialize the cart if absent (Python dicts keep insertion order),
then append the event and accumulate both totals. -/
def loadCartsStep (carts : List (Nat × LoadCart)) (e : Event) :
    List (Nat × LoadCart) :=
  let carts :=
    if (carts.find? (fun kv => kv.1 = e.cart_id)).isSome then carts
    else carts ++ [(e.cart_id,
      { customer_id := e.customer_id
        events := []
        total_revenue := 0
        lost_revenue := 0 })]
  updateAssoc carts e.cart_id (fun c =>
    { c with
      events := c.events ++ [mkLoadEvent e]
      total_revenue := c.total_revenue + e.revenue
      lost_revenue := c.lost_revenue + e.lost_revenue })

/-- The cart dict built by `load_carts_to_redis` (load.py lines 147-175). -/
def load_carts_build (events : List Event) : List (Nat × LoadCart) :=
  events.foldl loadCartsStep []

/-- `load_carts_to_redis` (load.py lines 120-196): `none` models the early
`return False` on empty input (no flush happens then); otherwise flush and
write every built cart. -/
def load_carts_to_redis (prior : Store) (events : List Event) : Option Store :=
  if events.isEmpty then none
  else
    some ((load_carts_build events).foldl
      (fun s kv => storeSet s (RKey.cart kv.1) (RVal.loadCartRec kv.2))
      (flushdb prior))

/-! ## Analytics (`src/core/analytics.py`) -/

/-- What an analytics pass reads back for one `cart:CART-*` key.
`eventsField = none` models a stored `events` string on which `json.loads`
raises (a malformed session record); `some evs` a string that deserializes
to `evs`. -/
structure StoredCart where
  customer_id : Int
  eventsField : Option (List Event)
  total_revenue : ℚ
  lost_revenue : ℚ
deriving DecidableEq, Repr

/-- `dict.get(k, 0) + v` accumulation for integer counters: a Python dict in
insertion order. -/
def bumpInt (l : List (String × Int)) (k : String) (v : Int) :
    List (String × Int) :=
  if (l.find? (fun kv => kv.1 = k)).isSome then
    l.map (fun kv => if kv.1 = k then (k, kv.2 + v) else kv)
  else l ++ [(k, v)]

/-- `dict.get(k, 0) + v` accumulation for rational sums. -/
def bumpRat (l : List (String × ℚ)) (k : String) (v : ℚ) :
    List (String × ℚ) :=
  if (l.find? (fun kv => kv.1 = k)).isSome then
    l.map (fun kv => if kv.1 = k then (k, kv.2 + v) else kv)
  else l ++ [(k, v)]

/-- Association-list lookup with Python's `d[k]` / `d.get(k, 0)` default. -/
def lookupRat (l : List (String × ℚ)) (k : String) : ℚ :=
  match l.find? (fun kv => kv.1 = k) with
  | some kv => kv.2
  | none => 0

/-- The event filter of `get_top_selling_products` / `get_top_categories`:
`event['event_type'] in ['checkout', 'partial_checkout']`. -/
def isSaleEvent (e : Event) : Bool :=
  e.event_type = EventType.checkout ∨ e.event_type = EventType.partial_checkout

/-- The cart loop of `get_top_selling_products` (lines 60-71), iterating the
stored carts in order; a cart whose `events` string fails to deserialize
raises, which aborts the whole loop (`none`). -/
def accumSalesGo (carts : List StoredCart)
    (acc : List (String × Int) × List (String × ℚ)) :
    Option (List (String × Int) × List (String × ℚ)) :=
  match carts with
  | [] => some acc
  | cart :: rest =>
      match cart.eventsField with
      | none => none
      | some events =>
          accumSalesGo rest (events.foldl (fun acc e =>
            if isSaleEvent e then
              (bumpInt acc.1 e.product_id e.quantity,
               bumpRat acc.2 e.product_id e.revenue)
            else acc) acc)

/-- The accumulation loop of `get_top_selling_products` (lines 55-71).  A
`none` result models the `json.loads` exception escaping the `for` loops into
the function-level `except`. -/
def accumSales (carts : List StoredCart) :
    Option (List (String × Int) × List (String × ℚ)) :=
  accumSalesGo carts ([], [])

/-- One row of the `get_top_selling_products` result DataFrame. -/
structure TopRow where
  product_id : String
  product_name : String
  category : String
  price : ℚ
  quantity_sold : Int
  revenue : ℚ
  original_stock : Int
deriving DecidableEq, Repr

/-- `get_top_selling_products` (lines 48-94): on any deserialization failure
the `except` branch returns an empty DataFrame; otherwise sort product sales
descending (Python's stable `sorted(..., reverse=True)`), truncate to `limit`,
and enrich via Mongo `find_one`, silently dropping products missing from the
catalog. -/
def get_top_selling_products (catalog : String → Option Product)
    (carts : List StoredCart) (limit : Nat) : List TopRow :=
  match accumSales carts with
  | none => []
  | some (sales, revenueBy) =>
      ((sales.insertionSort (fun a b => b.2 ≤ a.2)).take limit).foldl
        (fun rows pq =>
          match catalog pq.1 with
          | some p =>
              rows ++ [{ product_id := pq.1
                         product_name := p.product_name
                         category := p.category
                         price := p.discounted_price
                         quantity_sold := pq.2
                         revenue := lookupRat revenueBy pq.1
                         original_stock := p.stock }]
          | none => rows) []

/-- `category.split('|')[0] if '|' in category else category`. -/
def mainCategory (category : String) : String :=
  (category.splitOn "|").headD category

/-- Per-product loss entry of `get_lost_revenue_analysis` (lines 168-176). -/
structure LostEntry where
  product_name : String
  category : String
  lost_revenue : ℚ
  lost_units : Int
deriving DecidableEq, Repr

/-- Accumulator of `get_lost_revenue_analysis`: per-product entries,
per-category losses, `total_lost`, `total_revenue`. -/
structure LostAcc where
  lost_by_product : List (String × LostEntry)
  lost_by_category : List (String × ℚ)
  total_lost : ℚ
  total_revenue : ℚ
deriving DecidableEq, Repr

/-- `lost_by_product[product_id]['lost_revenue'] += lost_revenue` and
`lost_by_product[product_id]['lost_units'] += event.get('quantity', 0)`
(lines 175-176): the *full* requested quantity is added. -/
def bumpLostEntry (e : Event) (en : LostEntry) : LostEntry :=
  { en with
    lost_revenue := en.lost_revenue + e.lost_revenue
    lost_units := en.lost_units + e.quantity }

/-- The per-event body of `get_lost_revenue_analysis` (lines 156-179). -/
def lostStep (acc : LostAcc) (e : Event) : LostAcc :=
  let mc := mainCategory e.category
  let acc := { acc with
    total_lost := acc.total_lost + e.lost_revenue
    total_revenue := acc.total_revenue + e.revenue }
  if e.lost_revenue > 0 then
    let lbp :=
      if (acc.lost_by_product.find? (fun kv => kv.1 = e.product_id)).isSome then
        acc.lost_by_product
      else acc.lost_by_product ++
        [(e.product_id,
          { product_name := e.product_name
            category := mc
            lost_revenue := 0
            lost_units := 0 })]
    let lbp := lbp.map (fun kv =>
      if kv.1 = e.product_id then (kv.1, bumpLostEntry e kv.2) else kv)
    { acc with
      lost_by_product := lbp
      lost_by_category := bumpRat acc.lost_by_category mc e.lost_revenue }
  else acc

/-- The cart loop of `get_lost_revenue_analysis` (lines 152-179); a cart
whose `events` string fails to deserialize raises, which aborts the whole
loop (`none`). -/
def lostAccumGo (carts : List StoredCart) (acc : LostAcc) : Option LostAcc :=
  match carts with
  | [] => some acc
  | cart :: rest =>
      match cart.eventsField with
      | none => none
      | some events => lostAccumGo rest (events.foldl lostStep acc)

/-- The full accumulation of `get_lost_revenue_analysis` over all carts; as in
`accumSales`, `none` models a deserialization exception escaping to the
function-level `except`. -/
def lostAccum (carts : List StoredCart) : Option LostAcc :=
  lostAccumGo carts
    { lost_by_product := [], lost_by_category := [],
      total_lost := 0, total_revenue := 0 }

/-- The dict returned by `get_lost_revenue_analysis` (lines 195-201). -/
structure LostAnalysis where
  total_lost : ℚ
  total_revenue : ℚ
  lost_percentage : ℚ
  lost_by_product : List (String × LostEntry)
  lost_by_category : List (String × ℚ)
deriving DecidableEq, Repr

/-- `get_lost_revenue_analysis` (lines 142-205): `none` models the `except`
branch returning the empty dict `{}`. -/
def get_lost_revenue_analysis (carts : List StoredCart) :
    Option LostAnalysis :=
  match lostAccum carts with
  | none => none
  | some acc =>
      some
        { total_lost := acc.total_lost
          total_revenue := acc.total_revenue
          lost_percentage :=
            if acc.total_lost + acc.total_revenue > 0 then
              acc.total_lost / (acc.total_lost + acc.total_revenue) * 100
            else 0
          lost_by_product :=
            (acc.lost_by_product.insertionSort
              (fun a b => b.2.lost_revenue ≤ a.2.lost_revenue)).take 10
          lost_by_category :=
            (acc.lost_by_category.insertionSort (fun a b => b.2 ≤ a.2)).take 10 }

/-! ## Observables used by the claims -/

/-- Fulfilled units of one event: the full quantity for a `checkout`, the
`stock_before` units actually sold for a `partial_checkout`, 0 otherwise. -/
def fulfilledQty (e : Event) : Int :=
  match e.event_type with
  | EventType.checkout => e.quantity
  | EventType.partial_checkout => e.stock_before
  | _ => 0

/-- Sum of fulfilled quantities of one product's checkout/partial_checkout
events. -/
def sumFulfilled (pid : String) (evs : List Event) : Int :=
  (evs.map (fun e => if e.product_id = pid then fulfilledQty e else 0)).sum

/-- The first event at which the simulator records a stock-out for a product:
its first `stock_out` or `partial_checkout` event. -/
def firstTrigger (pid : String) (evs : List Event) : Option Event :=
  evs.find? (fun e => decide (e.product_id = pid ∧
    (e.event_type = EventType.stock_out ∨
     e.event_type = EventType.partial_checkout)))

/-- Modelled from the spec: the first event at which a product's stock
*reached exactly zero* (a transition from positive `stock_before` to
`stock_after = 0`), the reading of claim C3. -/
def specFirstZeroEvent (pid : String) (evs : List Event) : Option Event :=
  evs.find? (fun e => decide (e.product_id = pid ∧ e.stock_after = 0 ∧
    0 < e.stock_before))

/-- The stock-out record the simulator writes when event `e` first finds a
product out of (or short of) stock. -/
def mkSOInfo (start : Nat) (e : Event) : StockOutInfo :=
  { time := e.event_time
    duration_seconds := e.event_time - start
    product_name := e.product_name
    category := e.category }

/-- Everything in an event except its absolute timestamp, together with the
timestamp relative to the run start. -/
def eventSig (start : Nat) (e : Event) :
    Nat × Nat × Int × EventType × String × String × String × Int × ℚ ×
      Int × Int × ℚ × ℚ :=
  (e.event_time - start, e.cart_id, e.customer_id, e.event_type, e.product_id,
   e.product_name, e.category, e.quantity, e.price, e.stock_before,
   e.stock_after, e.revenue, e.lost_revenue)

/-- Everything in a stock-out record except its absolute timestamp, together
with the timestamp relative to the run start. -/
def soSig (start : Nat) (kv : String × StockOutInfo) :
    String × Nat × Nat × String × String :=
  (kv.1, kv.2.time - start, kv.2.duration_seconds, kv.2.product_name,
   kv.2.category)

/-- Two simulation states agree on everything except the absolute wall-clock
timestamps, which are shifted by the difference of the two run start times:
same remaining random stream, same cart counter, same stock tracker, same
events and stock-out records up to erasing absolute times (relative times
equal), and clocks at the same offset `k` from the respective starts. -/
def ShiftRel (s s' : Nat) (st st' : SimState) : Prop :=
  st.rng = st'.rng ∧ st.cart_id = st'.cart_id ∧ st.stock = st'.stock ∧
  st.events.map (eventSig s) = st'.events.map (eventSig s') ∧
  st.stockOuts.map (soSig s) = st'.stockOuts.map (soSig s') ∧
  ∃ k, st.time = s + k ∧ st'.time = s' + k

/-- Sum of the `revenue` fields of a list of events. -/
def sumRev (evs : List Event) : ℚ := (evs.map (fun e => e.revenue)).sum

/-- Sum of the `lost_revenue` fields of a list of events. -/
def sumLost (evs : List Event) : ℚ := (evs.map (fun e => e.lost_revenue)).sum

/-- Sum of the `revenue` fields of a list of re-serialized events. -/
def sumRevL (evs : List LoadEvent) : ℚ := (evs.map (fun e => e.revenue)).sum

/-- Sum of the `lost_revenue` fields of a list of re-serialized events. -/
def sumLostL (evs : List LoadEvent) : ℚ := (evs.map (fun e => e.lost_revenue)).sum

/-- A built cart record whose stored totals are exactly the sums over its
stored events. -/
def LoadCartOK (c : LoadCart) : Prop :=
  c.total_revenue = sumRevL c.events ∧ c.lost_revenue = sumLostL c.events

/-- All events an analytics pass iterates over: the concatenation of every
cart's deserialized event list (a malformed cart contributes nothing — but a
malformed cart also aborts the pass, see C4). -/
def joinEvents (carts : List StoredCart) : List Event :=
  (carts.map (fun c => c.eventsField.getD [])).flatten

/-- Total units counted into `lost_units` for one product: the *full*
requested quantity of every event of that product with positive
`lost_revenue`. -/
def lostUnitsSpec (pid : String) (evs : List Event) : Int :=
  (evs.map (fun e =>
    if e.product_id = pid ∧ e.lost_revenue > 0 then e.quantity else 0)).sum

/-- The per-event revenue/loss accounting facts that actually hold for every
emitted event.  `add`/`abandon` events carry no revenue and no loss, so the
identity `revenue + lost_revenue = price × quantity` holds precisely for the
`checkout`/`partial_checkout`/`stock_out` events. -/
def EventAccounting (e : Event) : Prop :=
  1 ≤ e.quantity ∧
  ((e.event_type = EventType.checkout ∨
      e.event_type = EventType.partial_checkout ∨
      e.event_type = EventType.stock_out) →
    e.revenue + e.lost_revenue = e.price * e.quantity) ∧
  (e.event_type = EventType.checkout →
    e.revenue = e.price * e.quantity ∧ e.lost_revenue = 0) ∧
  (e.event_type = EventType.stock_out →
    e.revenue = 0 ∧ e.lost_revenue = e.price * e.quantity) ∧
  (e.event_type = EventType.partial_checkout →
    e.revenue = e.price * e.stock_before ∧
    e.lost_revenue = e.price * ((e.quantity : ℚ) - (e.stock_before : ℚ)) ∧
    0 < e.stock_before ∧ e.stock_before < e.quantity ∧
    e.stock_before + (e.quantity - e.stock_before) = e.quantity) ∧
  ((e.event_type = EventType.add ∨ e.event_type = EventType.abandon) →
    e.revenue = 0 ∧ e.lost_revenue = 0) ∧
  (0 < e.price →
    (e.event_type = EventType.checkout → e.revenue ≠ 0 ∧ e.lost_revenue = 0) ∧
    (e.event_type = EventType.stock_out → e.revenue = 0 ∧ e.lost_revenue ≠ 0) ∧
    (e.event_type = EventType.partial_checkout →
      e.revenue ≠ 0 ∧ e.lost_revenue ≠ 0))

/-! ## Concrete inputs used by witnesses and counterexamples -/

/-- A catalog product with two units in stock. -/
def wProduct : Product :=
  { product_id := "P1", product_name := "Widget", category := "Home|Kitchen",
    discounted_price := 100, stock := 2 }

def wConfig : SimConfig :=
  { num_customers := 3, products := [wProduct], start := 0 }

/-- Draws for a two-step run on `wConfig`: a checkout of quantity 2 (which
empties the stock exactly), then a request hitting the empty stock. -/
def wDraws : List Nat := [0, 0, 1, 0, 0, 0, 0, 0, 0, 0, 0]

/-- `wConfig` with the wall-clock run start five seconds later. -/
def w5Config : SimConfig := { wConfig with start := 5 }

/-- The same product with ten units in stock. -/
def aProduct : Product := { wProduct with stock := 10 }

def aConfig : SimConfig :=
  { num_customers := 3, products := [aProduct], start := 0 }

/-- Draws for a one-step run on `aConfig` whose action draw (6) selects
`add`. -/
def aDraws : List Nat := [0, 0, 0, 0, 6, 0]

/-- The single event of that run. -/
def aEvent : Event :=
  { cart_id := 1, customer_id := 1, event_time := 1,
    event_type := EventType.add, product_id := "P1",
    product_name := "Widget", category := "Home|Kitchen", quantity := 1,
    price := 100, stock_before := 10, stock_after := 10, revenue := 0,
    lost_revenue := 0 }

/-- A checkout event worth 900 of revenue. -/
def r900Event : Event :=
  { cart_id := 1, customer_id := 1, event_time := 1,
    event_type := EventType.checkout, product_id := "P1",
    product_name := "Widget", category := "Home|Kitchen", quantity := 9,
    price := 100, stock_before := 10, stock_after := 1, revenue := 900,
    lost_revenue := 0 }

/-- A stock-out event losing 100 of revenue. -/
def l100Event : Event :=
  { cart_id := 1, customer_id := 1, event_time := 2,
    event_type := EventType.stock_out, product_id := "P2",
    product_name := "Gadget", category := "Office|Desk", quantity := 1,
    price := 100, stock_before := 0, stock_after := 0, revenue := 0,
    lost_revenue := 100 }

/-- A partial checkout: 5 requested, 2 fulfilled, 3 unfulfilled. -/
def pEvent : Event :=
  { cart_id := 1, customer_id := 1, event_time := 1,
    event_type := EventType.partial_checkout, product_id := "P1",
    product_name := "Widget", category := "Home|Kitchen", quantity := 5,
    price := 100, stock_before := 2, stock_after := 0, revenue := 200,
    lost_revenue := 300 }

/-- A well-formed stored cart whose events total 900 revenue / 100 lost. -/
def c8Cart : StoredCart :=
  { customer_id := 1, eventsField := some [r900Event, l100Event],
    total_revenue := 900, lost_revenue := 100 }

/-- A session set with total revenue 900 and total lost revenue 100. -/
def c8Carts : List StoredCart := [c8Cart]

/-- A stored cart holding one partial checkout. -/
def c10Carts : List StoredCart :=
  [{ customer_id := 1, eventsField := some [pEvent],
     total_revenue := 200, lost_revenue := 300 }]

/-- A stored cart whose serialized event list fails to deserialize
(`json.loads` raises on it). -/
def badCart : StoredCart :=
  { customer_id := 2, eventsField := none, total_revenue := 0,
    lost_revenue := 0 }

/-- The MongoDB catalog used by the analytics counterexamples: `find_one`
knows product "P1" only. -/
def aCatalog (pid : String) : Option Product :=
  if pid = "P1" then some aProduct else none


/-! ## Basic lemmas about the random-stream interpretations -/

lemma interpRandint_one_le {b : Int} (hb : 1 ≤ b) (n : Nat) :
    1 ≤ interpRandint 1 b n := by
  unfold interpRandint
  have h0 : (0 : Int) ≤ (n : Int) % (b - 1 + 1) := by
    apply Int.emod_nonneg
    omega
  omega

lemma interpRandint_quantity_le (n : Nat) : interpRandint 1 5 n ≤ 5 := by
  unfold interpRandint
  have := Int.emod_lt_of_pos (n : Int) (b := 5 - 1 + 1) (by omega)
  omega

lemma one_le_timeOffset (n : Nat) : 1 ≤ (interpRandint 1 10 n).toNat := by
  have h := interpRandint_one_le (b := 10) (by omega) n
  omega

lemma interpAction_cases (n : Nat) :
    interpAction n = EventType.checkout ∨ interpAction n = EventType.add ∨
      interpAction n = EventType.abandon := by
  unfold interpAction
  split_ifs <;> simp

/-! ## The step-shape lemma: one loop iteration appends exactly one event -/

lemma finishStep_events (st : SimState) (c : Int) (p : Product) (q : Int)
    (t : Nat) (b : BranchOut) :
    (finishStep st c p q t b).events = st.events ++
      [{ cart_id := st.cart_id
         customer_id := c
         event_time := t
         event_type := b.event_type
         product_id := p.product_id
         product_name := p.product_name
         category := p.category
         quantity := q
         price := p.discounted_price
         stock_before := b.stock_before
         stock_after := b.stock_after
         revenue := b.revenue
         lost_revenue := b.lost_revenue }] := rfl

lemma finishStep_time (st : SimState) (c : Int) (p : Product) (q : Int)
    (t : Nat) (b : BranchOut) : (finishStep st c p q t b).time = t := rfl

lemma finishStep_stock (st : SimState) (c : Int) (p : Product) (q : Int)
    (t : Nat) (b : BranchOut) : (finishStep st c p q t b).stock = b.stock := rfl

lemma finishStep_stockOuts (st : SimState) (c : Int) (p : Product) (q : Int)
    (t : Nat) (b : BranchOut) :
    (finishStep st c p q t b).stockOuts = b.stockOuts := rfl

/-- What one loop iteration does: it appends a single event whose fields,
stock effect and stock-out effect follow one of the four source branches. -/
lemma simStep_shape (cfg : SimConfig) (st : SimState) :
    ∃ e : Event,
      (simStep cfg st).events = st.events ++ [e] ∧
      (simStep cfg st).time = e.event_time ∧
      st.time < e.event_time ∧
      1 ≤ e.quantity ∧ e.cart_id = st.cart_id ∧
      ((e.event_type = EventType.stock_out ∧ st.stock e.product_id ≤ 0 ∧
          e.stock_before = 0 ∧ e.stock_after = 0 ∧
          e.revenue = 0 ∧ e.lost_revenue = e.price * e.quantity ∧
          (simStep cfg st).stock = st.stock ∧
          (simStep cfg st).stockOuts = recordStockOut cfg.start st.stockOuts
            e.product_id e.product_name e.category e.event_time) ∨
       (e.event_type = EventType.partial_checkout ∧
          0 < st.stock e.product_id ∧ st.stock e.product_id < e.quantity ∧
          e.stock_before = st.stock e.product_id ∧ e.stock_after = 0 ∧
          e.revenue = e.price * e.stock_before ∧
          e.lost_revenue = e.price * (e.quantity - e.stock_before) ∧
          (simStep cfg st).stock = Function.update st.stock e.product_id 0 ∧
          (simStep cfg st).stockOuts = recordStockOut cfg.start st.stockOuts
            e.product_id e.product_name e.category e.event_time) ∨
       (e.event_type = EventType.checkout ∧
          0 < st.stock e.product_id ∧ e.quantity ≤ st.stock e.product_id ∧
          e.stock_before = st.stock e.product_id ∧
          e.stock_after = st.stock e.product_id - e.quantity ∧
          e.revenue = e.price * e.quantity ∧ e.lost_revenue = 0 ∧
          (simStep cfg st).stock = Function.update st.stock e.product_id
            (st.stock e.product_id - e.quantity) ∧
          (simStep cfg st).stockOuts = st.stockOuts) ∨
       ((e.event_type = EventType.add ∨ e.event_type = EventType.abandon) ∧
          0 < st.stock e.product_id ∧ e.quantity ≤ st.stock e.product_id ∧
          e.stock_before = st.stock e.product_id ∧
          e.stock_after = st.stock e.product_id ∧
          e.revenue = 0 ∧ e.lost_revenue = 0 ∧
          (simStep cfg st).stock = st.stock ∧
          (simStep cfg st).stockOuts = st.stockOuts)) := by
  rcases hc : takeDraw st.rng with ⟨cDraw, rng1⟩
  rcases hp : takeDraw rng1 with ⟨pDraw, rng2⟩
  rcases hq : takeDraw rng2 with ⟨qDraw, rng3⟩
  rcases ht : takeDraw rng3 with ⟨tDraw, rng4⟩
  set product := cfg.products.getD (interpChoiceIdx cfg.products.length pDraw)
    default with hprod
  set quantity := interpRandint 1 5 qDraw with hqty
  set current_time := st.time + (interpRandint 1 10 tDraw).toNat with hct
  have hstep : simStep cfg st = finishStep st
      (interpRandint 1 cfg.num_customers cDraw) product quantity current_time
      (stockBranch cfg st product quantity current_time rng4) := by
    simp only [simStep, hc, hp, hq, ht]
  have htlt : st.time < current_time := by
    have := one_le_timeOffset tDraw
    omega
  have hq1 : 1 ≤ quantity := interpRandint_one_le (by omega) qDraw
  by_cases h1 : st.stock product.product_id ≤ 0
  · have hb : stockBranch cfg st product quantity current_time rng4 =
        { event_type := EventType.stock_out
          stock_before := 0
          stock_after := 0
          revenue := 0
          lost_revenue := product.discounted_price * quantity
          stock := st.stock
          stockOuts := recordStockOut cfg.start st.stockOuts product.product_id
            product.product_name product.category current_time
          rng := rng4 } := by
      unfold stockBranch
      rw [if_pos h1]
    refine ⟨_, by rw [hstep, finishStep_events], by rw [hstep, finishStep_time],
      htlt, hq1, rfl, Or.inl ?_⟩
    rw [hstep, finishStep_stock, finishStep_stockOuts, hb]
    exact ⟨rfl, h1, rfl, rfl, rfl, rfl, rfl, rfl⟩
  · by_cases h2 : st.stock product.product_id < quantity
    · have hb : stockBranch cfg st product quantity current_time rng4 =
          { event_type := EventType.partial_checkout
            stock_before := st.stock product.product_id
            stock_after := 0
            revenue := product.discounted_price *
              ((st.stock product.product_id : Int) : ℚ)
            lost_revenue := product.discounted_price *
              (((quantity - st.stock product.product_id : Int)) : ℚ)
            stock := Function.update st.stock product.product_id 0
            stockOuts := recordStockOut cfg.start st.stockOuts
              product.product_id product.product_name product.category
              current_time
            rng := rng4 } := by
        unfold stockBranch
        rw [if_neg h1, if_pos h2]
      have hpos : 0 < st.stock product.product_id := by omega
      refine ⟨_, by rw [hstep, finishStep_events], by rw [hstep, finishStep_time],
        htlt, hq1, rfl, Or.inr (Or.inl ?_)⟩
      rw [hstep, finishStep_stock, finishStep_stockOuts, hb]
      refine ⟨rfl, hpos, h2, rfl, rfl, rfl, ?_, rfl, rfl⟩
      show product.discounted_price * (((quantity - st.stock product.product_id : Int)) : ℚ)
        = product.discounted_price *
          ((quantity : ℚ) - ((st.stock product.product_id : Int) : ℚ))
      push_cast
      ring
    · rcases ha : takeDraw rng4 with ⟨aDraw, rng5⟩
      have hbp : stockBranch cfg st product quantity current_time rng4 =
          (match interpAction aDraw with
          | EventType.checkout =>
              { event_type := EventType.checkout
                stock_before := st.stock product.product_id
                stock_after := st.stock product.product_id - quantity
                revenue := product.discounted_price * quantity
                lost_revenue := 0
                stock := Function.update st.stock product.product_id
                  (st.stock product.product_id - quantity)
                stockOuts := st.stockOuts
                rng := rng5 }
          | EventType.add =>
              { event_type := EventType.add
                stock_before := st.stock product.product_id
                stock_after := st.stock product.product_id
                revenue := 0
                lost_revenue := 0
                stock := st.stock
                stockOuts := st.stockOuts
                rng := rng5 }
          | _ =>
              { event_type := EventType.abandon
                stock_before := st.stock product.product_id
                stock_after := st.stock product.product_id
                revenue := 0
                lost_revenue := 0
                stock := st.stock
                stockOuts := st.stockOuts
                rng := rng5 } : BranchOut) := by
        unfold stockBranch
        rw [if_neg h1, if_neg h2, ha]
      have hpos : 0 < st.stock product.product_id := by omega
      have hge : quantity ≤ st.stock product.product_id := by omega
      rcases interpAction_cases aDraw with hA | hA | hA <;> rw [hA] at hbp
      · refine ⟨_, by rw [hstep, finishStep_events],
          by rw [hstep, finishStep_time], htlt, hq1, rfl,
          Or.inr (Or.inr (Or.inl ?_))⟩
        rw [hstep, finishStep_stock, finishStep_stockOuts, hbp]
        exact ⟨rfl, hpos, hge, rfl, rfl, rfl, rfl, rfl, rfl⟩
      · refine ⟨_, by rw [hstep, finishStep_events],
          by rw [hstep, finishStep_time], htlt, hq1, rfl,
          Or.inr (Or.inr (Or.inr ?_))⟩
        rw [hstep, finishStep_stock, finishStep_stockOuts, hbp]
        exact ⟨Or.inl rfl, hpos, hge, rfl, rfl, rfl, rfl, rfl, rfl⟩
      · refine ⟨_, by rw [hstep, finishStep_events],
          by rw [hstep, finishStep_time], htlt, hq1, rfl,
          Or.inr (Or.inr (Or.inr ?_))⟩
        rw [hstep, finishStep_stock, finishStep_stockOuts, hbp]
        exact ⟨Or.inr rfl, hpos, hge, rfl, rfl, rfl, rfl, rfl, rfl⟩

lemma runSim_succ (cfg : SimConfig) (n : Nat) (st : SimState) :
    runSim cfg (n + 1) st = simStep cfg (runSim cfg n st) := by
  induction n generalizing st with
  | zero => rfl
  | succ n ih =>
      show runSim cfg (n + 1) (simStep cfg st) = _
      rw [ih]
      rfl

lemma sumFulfilled_append (pid : String) (evs : List Event) (e : Event) :
    sumFulfilled pid (evs ++ [e]) =
      sumFulfilled pid evs + (if e.product_id = pid then fulfilledQty e else 0) := by
  simp [sumFulfilled]

/-- Stock effect of one loop iteration: conservation, monotonicity, and
non-negativity. -/
lemma simStep_stock_effect (cfg : SimConfig) (st : SimState) (pid : String) :
    (simStep cfg st).stock pid + sumFulfilled pid (simStep cfg st).events
      = st.stock pid + sumFulfilled pid st.events ∧
    (simStep cfg st).stock pid ≤ st.stock pid ∧
    (0 ≤ st.stock pid → 0 ≤ (simStep cfg st).stock pid) := by
  obtain ⟨e, hev, -, -, hq1, -, hbr⟩ := simStep_shape cfg st
  rw [hev, sumFulfilled_append]
  rcases hbr with
      ⟨het, -, -, -, -, -, hsk, -⟩ |
      ⟨het, hpos, hlt, hsb, -, -, -, hsk, -⟩ |
      ⟨het, -, hge, -, -, -, -, hsk, -⟩ |
      ⟨het, -, -, -, -, -, -, hsk, -⟩
  · have hfq : fulfilledQty e = 0 := by simp [fulfilledQty, het]
    rw [hsk, hfq]
    simp
  · have hfq : fulfilledQty e = e.stock_before := by simp [fulfilledQty, het]
    rw [hsk, hfq, hsb]
    by_cases hp : e.product_id = pid
    · subst hp
      rw [Function.update_same, if_pos rfl]
      omega
    · rw [Function.update_noteq (fun h => hp h.symm), if_neg hp]
      omega
  · have hfq : fulfilledQty e = e.quantity := by simp [fulfilledQty, het]
    rw [hsk, hfq]
    by_cases hp : e.product_id = pid
    · subst hp
      rw [Function.update_same, if_pos rfl]
      omega
    · rw [Function.update_noteq (fun h => hp h.symm), if_neg hp]
      omega
  · have hfq : fulfilledQty e = 0 := by
      rcases het with h | h <;> simp [fulfilledQty, h]
    rw [hsk, hfq]
    simp

lemma foldl_update_nonneg (ps : List Product) (f : String → Int)
    (hps : ∀ p ∈ ps, 0 ≤ p.stock) (hf : ∀ s, 0 ≤ f s) (pid : String) :
    0 ≤ (ps.foldl (fun f p => Function.update f p.product_id p.stock) f) pid := by
  induction ps generalizing f with
  | nil => exact hf pid
  | cons p ps ih =>
      refine ih _ (fun q hq => hps q (List.mem_cons_of_mem _ hq)) ?_
      intro s
      show 0 ≤ Function.update f p.product_id p.stock s
      by_cases hs : s = p.product_id
      · subst hs
        rw [Function.update_same]
        exact hps p (List.mem_cons_self _ _)
      · rw [Function.update_noteq hs]
        exact hf s

lemma initStock_nonneg (ps : List Product) (hps : ∀ p ∈ ps, 0 ≤ p.stock)
    (pid : String) : 0 ≤ initStock ps pid :=
  foldl_update_nonneg ps _ hps (fun _ => le_refl 0) pid

/-- Every event appended by one loop iteration satisfies the accounting
facts. -/
lemma simStep_eventAccounting (cfg : SimConfig) (st : SimState) :
    ∀ e ∈ (simStep cfg st).events, e ∈ st.events ∨ EventAccounting e := by
  obtain ⟨e', hev, -, -, hq1, -, hbr⟩ := simStep_shape cfg st
  rw [hev]
  intro e he
  rcases List.mem_append.mp he with h | h
  · exact Or.inl h
  · right
    have heq : e = e' := by simpa using h
    subst heq
    have hqpos : (0 : ℚ) < (e.quantity : ℚ) := by
      have h0 : (0 : Int) < e.quantity := by omega
      exact_mod_cast h0

    rcases hbr with
        ⟨het, -, -, -, hrv, hlr, -, -⟩ |
        ⟨het, hpos, hlt, hsb, -, hrv, hlr, -, -⟩ |
        ⟨het, -, -, -, -, hrv, hlr, -, -⟩ |
        ⟨het, -, -, -, -, hrv, hlr, -, -⟩
    · exact ⟨hq1, fun _ => by rw [hrv, hlr]; ring,
        fun h => by simp [het] at h,
        fun _ => ⟨hrv, hlr⟩,
        fun h => by simp [het] at h,
        fun h => by rcases h with h | h <;> simp [het] at h,
        fun hp => ⟨fun h => by simp [het] at h,
          fun _ => ⟨hrv, by
            rw [hlr]; exact mul_ne_zero (ne_of_gt hp) (ne_of_gt hqpos)⟩,
          fun h => by simp [het] at h⟩⟩
    · have hsb' : 0 < e.stock_before := by omega
      have hlt' : e.stock_before < e.quantity := by omega
      have hsbq : (0 : ℚ) < (e.stock_before : ℚ) := by exact_mod_cast hsb'
      have hltq : ((e.stock_before : ℚ)) < (e.quantity : ℚ) := by
        exact_mod_cast hlt'
      exact ⟨hq1, fun _ => by rw [hrv, hlr]; ring,
        fun h => by simp [het] at h,
        fun h => by simp [het] at h,
        fun _ => ⟨hrv, hlr, hsb', hlt', by ring⟩,
        fun h => by rcases h with h | h <;> simp [het] at h,
        fun hp => ⟨fun h => by simp [het] at h,
          fun h => by simp [het] at h,
          fun _ => ⟨by
            rw [hrv]; exact mul_ne_zero (ne_of_gt hp) (ne_of_gt hsbq), by
            rw [hlr]
            exact mul_ne_zero (ne_of_gt hp) (ne_of_gt (by linarith))⟩⟩⟩
    · exact ⟨hq1, fun _ => by rw [hrv, hlr]; ring,
        fun _ => ⟨hrv, hlr⟩,
        fun h => by simp [het] at h,
        fun h => by simp [het] at h,
        fun h => by rcases h with h | h <;> simp [het] at h,
        fun hp => ⟨fun _ => ⟨by
            rw [hrv]; exact mul_ne_zero (ne_of_gt hp) (ne_of_gt hqpos), hlr⟩,
          fun h => by simp [het] at h,
          fun h => by simp [het] at h⟩⟩
    · refine ⟨hq1, fun h => ?_, fun h => ?_, fun h => ?_, fun h => ?_,
        fun _ => ⟨hrv, hlr⟩, fun hp => ⟨fun h => ?_, fun h => ?_, fun h => ?_⟩⟩
      all_goals
        rcases het with h' | h'
      all_goals
        first
        | (rcases h with h | h | h <;> simp [h'] at h)
        | simp [h'] at h

lemma runSim_eventAccounting (cfg : SimConfig) (n : Nat) (st : SimState)
    (hst : ∀ e ∈ st.events, EventAccounting e) :
    ∀ e ∈ (runSim cfg n st).events, EventAccounting e := by
  induction n generalizing st with
  | zero => exact hst
  | succ n ih =>
      show ∀ e ∈ (runSim cfg n (simStep cfg st)).events, EventAccounting e
      refine ih _ (fun e he => ?_)
      rcases simStep_eventAccounting cfg st e he with h | h
      · exact hst e h
      · exact h

/-! ## Stock-out tracking lemmas -/

lemma find?_append {α : Type} (p : α → Bool) (l₁ l₂ : List α) :
    (l₁ ++ l₂).find? p =
      (match l₁.find? p with
       | some a => some a
       | none => l₂.find? p) := by
  induction l₁ with
  | nil => simp
  | cons a l ih => by_cases h : p a <;> simp [List.find?_cons, h, ih]

lemma firstTrigger_append (pid : String) (evs : List Event) (e : Event) :
    firstTrigger pid (evs ++ [e]) =
      (match firstTrigger pid evs with
       | some x => some x
       | none =>
          if e.product_id = pid ∧
              (e.event_type = EventType.stock_out ∨
               e.event_type = EventType.partial_checkout) then some e
          else none) := by
  unfold firstTrigger
  rw [find?_append]
  cases hf : evs.find? (fun e => decide (e.product_id = pid ∧
      (e.event_type = EventType.stock_out ∨
       e.event_type = EventType.partial_checkout))) with
  | none =>
      by_cases hP : e.product_id = pid ∧
          (e.event_type = EventType.stock_out ∨
           e.event_type = EventType.partial_checkout)
      · simp [List.find?_cons, hP]
      · simp [List.find?_cons, hP]
  | some x => simp

lemma alistLookup_cons {α : Type} (k k' : String) (v : α)
    (l : List (String × α)) :
    alistLookup ((k, v) :: l) k' =
      if k = k' then some v else alistLookup l k' := by
  unfold alistLookup
  rw [List.find?_cons]
  by_cases h : k = k' <;> simp [h]

lemma alistLookup_eq_none_iff {α : Type} (l : List (String × α)) (k : String) :
    alistLookup l k = none ↔ k ∉ l.map Prod.fst := by
  unfold alistLookup
  cases hf : l.find? (fun kv => decide (kv.1 = k)) with
  | none =>
      simp only [true_iff]
      intro hk
      obtain ⟨kv, hkv, hfst⟩ := List.mem_map.mp hk
      have := List.find?_eq_none.mp hf kv hkv
      simp [hfst] at this
  | some kv =>
      constructor
      · intro h
        cases h
      · intro hk
        exfalso
        apply hk
        have h1 := List.find?_some hf
        have h2 := List.mem_of_find?_eq_some hf
        simp only [decide_eq_true_eq] at h1
        exact List.mem_map.mpr ⟨kv, h2, h1⟩

/-- Case of `simStep_stockOut_inv` where the iteration records no stock-out. -/
lemma stockOut_keep_case (cfg : SimConfig) (st : SimState) (e : Event)
    (hev : (simStep cfg st).events = st.events ++ [e])
    (hso : (simStep cfg st).stockOuts = st.stockOuts)
    (htr : ¬(e.event_type = EventType.stock_out ∨
             e.event_type = EventType.partial_checkout))
    (hinv : ∀ pid, alistLookup st.stockOuts pid =
      (firstTrigger pid st.events).map (mkSOInfo cfg.start)) :
    ∀ pid, alistLookup (simStep cfg st).stockOuts pid =
      (firstTrigger pid (simStep cfg st).events).map (mkSOInfo cfg.start) := by
  intro pid
  rw [hso, hev, firstTrigger_append]
  cases hft : firstTrigger pid st.events with
  | none =>
      rw [if_neg (fun h => htr h.2)]
      rw [hinv pid, hft]
  | some x =>
      rw [hinv pid, hft]

/-- Case of `simStep_stockOut_inv` where the iteration hits an out-of-stock or
short-stock product and runs the `if product_id not in stock_out_times`
recording. -/
lemma stockOut_record_case (cfg : SimConfig) (st : SimState) (e : Event)
    (hev : (simStep cfg st).events = st.events ++ [e])
    (hso : (simStep cfg st).stockOuts = recordStockOut cfg.start st.stockOuts
      e.product_id e.product_name e.category e.event_time)
    (htr : e.event_type = EventType.stock_out ∨
           e.event_type = EventType.partial_checkout)
    (hinv : ∀ pid, alistLookup st.stockOuts pid =
      (firstTrigger pid st.events).map (mkSOInfo cfg.start))
    (hnd : (st.stockOuts.map Prod.fst).Nodup) :
    (∀ pid, alistLookup (simStep cfg st).stockOuts pid =
      (firstTrigger pid (simStep cfg st).events).map (mkSOInfo cfg.start)) ∧
    ((simStep cfg st).stockOuts.map Prod.fst).Nodup := by
  rw [hso, hev]
  unfold recordStockOut
  by_cases hmem : (alistLookup st.stockOuts e.product_id).isSome
  · rw [if_pos hmem]
    refine ⟨fun pid => ?_, hnd⟩
    rw [firstTrigger_append]
    cases hft : firstTrigger pid st.events with
    | none =>
        have hnone : alistLookup st.stockOuts pid = none := by
          rw [hinv pid, hft]
          rfl
        have hne : ¬(e.product_id = pid) := by
          intro h
          rw [h] at hmem
          rw [hnone] at hmem
          simp at hmem
        rw [if_neg (fun hc => hne hc.1), hnone]
        rfl
    | some x =>
        rw [hinv pid, hft]
  · rw [if_neg hmem]
    have hnone : alistLookup st.stockOuts e.product_id = none :=
      Option.not_isSome_iff_eq_none.mp hmem
    constructor
    · intro pid
      rw [alistLookup_cons, firstTrigger_append]
      by_cases hp : e.product_id = pid
      · subst hp
        have hft : firstTrigger e.product_id st.events = none := by
          have h2 := (hinv e.product_id).symm
          rw [hnone] at h2
          exact Option.map_eq_none'.mp h2
        rw [if_pos rfl, hft, if_pos ⟨rfl, htr⟩]
        rfl
      · rw [if_neg hp]
        cases hft : firstTrigger pid st.events with
        | none =>
            rw [if_neg (fun hc => hp hc.1), hinv pid, hft]
        | some x =>
            rw [hinv pid, hft]
    · refine List.Nodup.cons ?_ hnd
      exact fun h => (alistLookup_eq_none_iff _ _).mp hnone h

lemma runSim_stockOut_inv (cfg : SimConfig) (n : Nat) (st : SimState)
    (hinv : ∀ pid, alistLookup st.stockOuts pid =
      (firstTrigger pid st.events).map (mkSOInfo cfg.start))
    (hnd : (st.stockOuts.map Prod.fst).Nodup) :
    (∀ pid, alistLookup (runSim cfg n st).stockOuts pid =
      (firstTrigger pid (runSim cfg n st).events).map (mkSOInfo cfg.start)) ∧
    ((runSim cfg n st).stockOuts.map Prod.fst).Nodup := by
  induction n generalizing st with
  | zero => exact ⟨hinv, hnd⟩
  | succ n ih =>
      show (∀ pid, alistLookup (runSim cfg n (simStep cfg st)).stockOuts pid = _) ∧ _
      obtain ⟨e, hev, -, -, -, -, hbr⟩ := simStep_shape cfg st
      rcases hbr with
          ⟨het, -, -, -, -, -, -, hso⟩ |
          ⟨het, -, -, -, -, -, -, -, hso⟩ |
          ⟨het, -, -, -, -, -, -, -, hso⟩ |
          ⟨het, -, -, -, -, -, -, -, hso⟩
      · exact ih _ (stockOut_record_case cfg st e hev hso (Or.inl het) hinv hnd).1
          (stockOut_record_case cfg st e hev hso (Or.inl het) hinv hnd).2
      · exact ih _ (stockOut_record_case cfg st e hev hso (Or.inr het) hinv hnd).1
          (stockOut_record_case cfg st e hev hso (Or.inr het) hinv hnd).2
      · refine ih _ (stockOut_keep_case cfg st e hev hso ?_ hinv) (hso ▸ hnd)
        rintro (h | h) <;> rw [het] at h <;> cases h
      · refine ih _ (stockOut_keep_case cfg st e hev hso ?_ hinv) (hso ▸ hnd)
        rcases het with het | het <;>
          · rintro (h | h) <;> rw [het] at h <;> cases h

/-! ## Time-shift bisimulation (claim C2) -/

lemma finishStep_rng (st : SimState) (c : Int) (p : Product) (q : Int)
    (t : Nat) (b : BranchOut) :
    (finishStep st c p q t b).rng = (takeDraw b.rng).2 := rfl

lemma finishStep_cart (st : SimState) (c : Int) (p : Product) (q : Int)
    (t : Nat) (b : BranchOut) :
    (finishStep st c p q t b).cart_id =
      if interpNewCart (takeDraw b.rng).1 then st.cart_id + 1
      else st.cart_id := rfl

lemma alistLookup_isSome_iff {α : Type} (l : List (String × α)) (k : String) :
    (alistLookup l k).isSome = true ↔ k ∈ l.map Prod.fst := by
  constructor
  · intro h
    by_contra hk
    rw [(alistLookup_eq_none_iff l k).mpr hk] at h
    cases h
  · intro hk
    cases hx : alistLookup l k with
    | none => exact absurd hk ((alistLookup_eq_none_iff l k).mp hx)
    | some v => rfl

lemma soSig_keys (s : Nat) (l : List (String × StockOutInfo)) :
    (l.map (soSig s)).map Prod.fst = l.map Prod.fst := by
  rw [List.map_map]
  rfl

/-- The `if product_id not in stock_out_times` recording commutes with erasing
absolute times, provided the recorded relative time agrees. -/
lemma recordStockOut_map_soSig (s s' : Nat)
    (so so' : List (String × StockOutInfo))
    (hso : so.map (soSig s) = so'.map (soSig s'))
    (pid name cat : String) (T T' : Nat) (hrel : T - s = T' - s') :
    (recordStockOut s so pid name cat T).map (soSig s) =
      (recordStockOut s' so' pid name cat T').map (soSig s') := by
  have hkeys : so.map Prod.fst = so'.map Prod.fst := by
    rw [← soSig_keys s so, ← soSig_keys s' so', hso]
  unfold recordStockOut
  by_cases hm : (alistLookup so pid).isSome
  · have hm' : (alistLookup so' pid).isSome := by
      rw [alistLookup_isSome_iff, ← hkeys, ← alistLookup_isSome_iff]
      exact hm
    rw [if_pos hm, if_pos hm']
    exact hso
  · have hm' : ¬(alistLookup so' pid).isSome = true := by
      rw [alistLookup_isSome_iff, ← hkeys, ← alistLookup_isSome_iff]
      exact hm
    rw [if_neg hm, if_neg hm', List.map_cons, List.map_cons, hso]
    congr 1
    show (pid, T - s, T - s, name, cat) = (pid, T' - s', T' - s', name, cat)
    rw [hrel]

/-- `finishStep` preserves the time-shift relation when both branch outcomes
agree up to erasing absolute times. -/
lemma finishStep_shiftRel (cfg cfg' : SimConfig) (st st' : SimState)
    (c : Int) (product : Product) (quantity : Int) (T T' : Nat)
    (B B' : BranchOut)
    (hcart : st.cart_id = st'.cart_id)
    (hev : st.events.map (eventSig cfg.start) =
      st'.events.map (eventSig cfg'.start))
    (k' : Nat) (hTk : T = cfg.start + k') (hTk' : T' = cfg'.start + k')
    (hrng : B.rng = B'.rng)
    (hstockB : B.stock = B'.stock)
    (hsoB : B.stockOuts.map (soSig cfg.start) =
      B'.stockOuts.map (soSig cfg'.start))
    (het : B.event_type = B'.event_type)
    (hsb : B.stock_before = B'.stock_before)
    (hsa : B.stock_after = B'.stock_after)
    (hrv : B.revenue = B'.revenue)
    (hlr : B.lost_revenue = B'.lost_revenue) :
    ShiftRel cfg.start cfg'.start (finishStep st c product quantity T B)
      (finishStep st' c product quantity T' B') := by
  refine ⟨?_, ?_, ?_, ?_, ?_, k', ?_, ?_⟩
  · rw [finishStep_rng, finishStep_rng, hrng]
  · rw [finishStep_cart, finishStep_cart, hrng, hcart]
  · rw [finishStep_stock, finishStep_stock, hstockB]
  · rw [finishStep_events, finishStep_events, List.map_append,
      List.map_append, hev]
    congr 1
    simp only [List.map_cons, List.map_nil]
    congr 1
    show (T - cfg.start, st.cart_id, c, B.event_type, product.product_id,
        product.product_name, product.category, quantity,
        product.discounted_price, B.stock_before, B.stock_after, B.revenue,
        B.lost_revenue) =
      (T' - cfg'.start, st'.cart_id, c, B'.event_type, product.product_id,
        product.product_name, product.category, quantity,
        product.discounted_price, B'.stock_before, B'.stock_after, B'.revenue,
        B'.lost_revenue)
    rw [hcart, het, hsb, hsa, hrv, hlr, show T - cfg.start = T' - cfg'.start
      by omega]
  · rw [finishStep_stockOuts, finishStep_stockOuts, hsoB]
  · rw [finishStep_time]
    exact hTk
  · rw [finishStep_time]
    exact hTk'

/-- One loop iteration preserves the time-shift relation. -/
lemma simStep_shiftRel (cfg cfg' : SimConfig)
    (hnc : cfg.num_customers = cfg'.num_customers)
    (hps : cfg.products = cfg'.products)
    (st st' : SimState) (hrel : ShiftRel cfg.start cfg'.start st st') :
    ShiftRel cfg.start cfg'.start (simStep cfg st) (simStep cfg' st') := by
  obtain ⟨hrng, hcart, hstock, hev, hso, k, htk, htk'⟩ := hrel
  rcases hc : takeDraw st.rng with ⟨cDraw, rng1⟩
  have hc' : takeDraw st'.rng = (cDraw, rng1) := by rw [← hrng, hc]
  rcases hpd : takeDraw rng1 with ⟨pDraw, rng2⟩
  rcases hqd : takeDraw rng2 with ⟨qDraw, rng3⟩
  rcases htd : takeDraw rng3 with ⟨tDraw, rng4⟩
  set product := cfg.products.getD (interpChoiceIdx cfg.products.length pDraw)
    default with hprod
  set quantity := interpRandint 1 5 qDraw with hqty
  set T := st.time + (interpRandint 1 10 tDraw).toNat with hT
  set T' := st'.time + (interpRandint 1 10 tDraw).toNat with hT'
  have hstep : simStep cfg st = finishStep st
      (interpRandint 1 cfg.num_customers cDraw) product quantity T
      (stockBranch cfg st product quantity T rng4) := by
    simp only [simStep, hc, hpd, hqd, htd]
  have hstep' : simStep cfg' st' = finishStep st'
      (interpRandint 1 cfg.num_customers cDraw) product quantity T'
      (stockBranch cfg' st' product quantity T' rng4) := by
    simp only [simStep, hc', hpd, hqd, htd, ← hnc, ← hps]
  rw [hstep, hstep']
  have hrelT : T - cfg.start = T' - cfg'.start := by omega
  have hTk : T = cfg.start + (k + (interpRandint 1 10 tDraw).toNat) := by omega
  have hTk' : T' = cfg'.start + (k + (interpRandint 1 10 tDraw).toNat) := by
    omega
  by_cases h1 : st.stock product.product_id ≤ 0
  · have h1' : st'.stock product.product_id ≤ 0 := by rw [← hstock]; exact h1
    have hb : stockBranch cfg st product quantity T rng4 =
        { event_type := EventType.stock_out
          stock_before := 0
          stock_after := 0
          revenue := 0
          lost_revenue := product.discounted_price * quantity
          stock := st.stock
          stockOuts := recordStockOut cfg.start st.stockOuts
            product.product_id product.product_name product.category T
          rng := rng4 } := by
      unfold stockBranch
      rw [if_pos h1]
    have hb' : stockBranch cfg' st' product quantity T' rng4 =
        { event_type := EventType.stock_out
          stock_before := 0
          stock_after := 0
          revenue := 0
          lost_revenue := product.discounted_price * quantity
          stock := st'.stock
          stockOuts := recordStockOut cfg'.start st'.stockOuts
            product.product_id product.product_name product.category T'
          rng := rng4 } := by
      unfold stockBranch
      rw [if_pos h1']
    rw [hb, hb']
    exact finishStep_shiftRel cfg cfg' st st' _ product quantity T T' _ _
      hcart hev _ hTk hTk' rfl hstock
      (recordStockOut_map_soSig _ _ _ _ hso _ _ _ _ _ hrelT)
      rfl rfl rfl rfl rfl
  · have h1' : ¬(st'.stock product.product_id ≤ 0) := by
      rw [← hstock]
      exact h1
    by_cases h2 : st.stock product.product_id < quantity
    · have h2' : st'.stock product.product_id < quantity := by
        rw [← hstock]
        exact h2
      have hb : stockBranch cfg st product quantity T rng4 =
          { event_type := EventType.partial_checkout
            stock_before := st.stock product.product_id
            stock_after := 0
            revenue := product.discounted_price *
              ((st.stock product.product_id : Int) : ℚ)
            lost_revenue := product.discounted_price *
              (((quantity - st.stock product.product_id : Int)) : ℚ)
            stock := Function.update st.stock product.product_id 0
            stockOuts := recordStockOut cfg.start st.stockOuts
              product.product_id product.product_name product.category T
            rng := rng4 } := by
        unfold stockBranch
        rw [if_neg h1, if_pos h2]
      have hb' : stockBranch cfg' st' product quantity T' rng4 =
          { event_type := EventType.partial_checkout
            stock_before := st'.stock product.product_id
            stock_after := 0
            revenue := product.discounted_price *
              ((st'.stock product.product_id : Int) : ℚ)
            lost_revenue := product.discounted_price *
              (((quantity - st'.stock product.product_id : Int)) : ℚ)
            stock := Function.update st'.stock product.product_id 0
            stockOuts := recordStockOut cfg'.start st'.stockOuts
              product.product_id product.product_name product.category T'
            rng := rng4 } := by
        unfold stockBranch
        rw [if_neg h1', if_pos h2']
      rw [hb, hb']
      exact finishStep_shiftRel cfg cfg' st st' _ product quantity T T' _ _
        hcart hev _ hTk hTk' rfl (by rw [hstock])
        (recordStockOut_map_soSig _ _ _ _ hso _ _ _ _ _ hrelT)
        rfl (by rw [hstock]) rfl (by rw [hstock]) (by rw [hstock])
    · have h2' : ¬(st'.stock product.product_id < quantity) := by
        rw [← hstock]
        exact h2
      rcases had : takeDraw rng4 with ⟨aDraw, rng5⟩
      have hbA : stockBranch cfg st product quantity T rng4 =
          (match interpAction aDraw with
          | EventType.checkout =>
              { event_type := EventType.checkout
                stock_before := st.stock product.product_id
                stock_after := st.stock product.product_id - quantity
                revenue := product.discounted_price * quantity
                lost_revenue := 0
                stock := Function.update st.stock product.product_id
                  (st.stock product.product_id - quantity)
                stockOuts := st.stockOuts
                rng := rng5 }
          | EventType.add =>
              { event_type := EventType.add
                stock_before := st.stock product.product_id
                stock_after := st.stock product.product_id
                revenue := 0
                lost_revenue := 0
                stock := st.stock
                stockOuts := st.stockOuts
                rng := rng5 }
          | _ =>
              { event_type := EventType.abandon
                stock_before := st.stock product.product_id
                stock_after := st.stock product.product_id
                revenue := 0
                lost_revenue := 0
                stock := st.stock
                stockOuts := st.stockOuts
                rng := rng5 } : BranchOut) := by
        unfold stockBranch
        rw [if_neg h1, if_neg h2, had]
      have hbA' : stockBranch cfg' st' product quantity T' rng4 =
          (match interpAction aDraw with
          | EventType.checkout =>
              { event_type := EventType.checkout
                stock_before := st'.stock product.product_id
                stock_after := st'.stock product.product_id - quantity
                revenue := product.discounted_price * quantity
                lost_revenue := 0
                stock := Function.update st'.stock product.product_id
                  (st'.stock product.product_id - quantity)
                stockOuts := st'.stockOuts
                rng := rng5 }
          | EventType.add =>
              { event_type := EventType.add
                stock_before := st'.stock product.product_id
                stock_after := st'.stock product.product_id
                revenue := 0
                lost_revenue := 0
                stock := st'.stock
                stockOuts := st'.stockOuts
                rng := rng5 }
          | _ =>
              { event_type := EventType.abandon
                stock_before := st'.stock product.product_id
                stock_after := st'.stock product.product_id
                revenue := 0
                lost_revenue := 0
                stock := st'.stock
                stockOuts := st'.stockOuts
                rng := rng5 } : BranchOut) := by
        unfold stockBranch
        rw [if_neg h1', if_neg h2', had]
      rcases interpAction_cases aDraw with hA | hA | hA <;>
        rw [hA] at hbA hbA' <;> rw [hbA, hbA'] <;>
        exact finishStep_shiftRel cfg cfg' st st' _ product quantity T T' _ _
          hcart hev _ hTk hTk' rfl (by rw [hstock]) hso rfl
          (by rw [hstock]) (by rw [hstock]) rfl rfl

lemma runSim_shiftRel (cfg cfg' : SimConfig)
    (hnc : cfg.num_customers = cfg'.num_customers)
    (hps : cfg.products = cfg'.products) (n : Nat) (st st' : SimState)
    (hrel : ShiftRel cfg.start cfg'.start st st') :
    ShiftRel cfg.start cfg'.start (runSim cfg n st) (runSim cfg' n st') := by
  induction n generalizing st st' with
  | zero => exact hrel
  | succ n ih =>
      show ShiftRel _ _ (runSim cfg n (simStep cfg st))
        (runSim cfg' n (simStep cfg' st'))
      exact ih _ _ (simStep_shiftRel cfg cfg' hnc hps st st' hrel)

/-! ## Persistence lemmas -/

lemma cartGroupFold_go (grp : List Event) (acc : List Event × ℚ × ℚ) :
    grp.foldl (fun acc e =>
      (acc.1 ++ [e], acc.2.1 + e.revenue, acc.2.2 + e.lost_revenue)) acc
      = (acc.1 ++ grp, acc.2.1 + sumRev grp, acc.2.2 + sumLost grp) := by
  induction grp generalizing acc with
  | nil => simp [sumRev, sumLost]
  | cons e grp ih =>
      rw [List.foldl_cons, ih]
      simp only [sumRev, sumLost, List.map_cons, List.sum_cons, Prod.mk.injEq]
      refine ⟨by simp, by ring, by ring⟩

lemma mkCartRecord_totals (grp : List Event) :
    (mkCartRecord grp).events = grp ∧
    (mkCartRecord grp).total_revenue = sumRev grp ∧
    (mkCartRecord grp).lost_revenue = sumLost grp := by
  simp [mkCartRecord, cartGroupFold, cartGroupFold_go]

lemma storeSet_lookup (s : Store) (k k' : RKey) (v : RVal) :
    storeSet s k v k' = if k' = k then some v else s k' := by
  unfold storeSet
  rw [Function.update_apply]

lemma foldl_write_cart (f : Nat → RVal) (cids : List Nat) (s0 : Store)
    (cid : Nat) :
    (cids.foldl (fun s c => storeSet s (RKey.cart c) (f c)) s0) (RKey.cart cid)
      = if cid ∈ cids then some (f cid) else s0 (RKey.cart cid) := by
  induction cids generalizing s0 with
  | nil => simp
  | cons c rest ih =>
      rw [List.foldl_cons, ih]
      by_cases hm : cid ∈ rest
      · rw [if_pos hm, if_pos (List.mem_cons_of_mem _ hm)]
      · rw [if_neg hm, storeSet_lookup]
        by_cases hc : cid = c
        · subst hc
          rw [if_pos rfl, if_pos (List.mem_cons_self _ _)]
        · rw [if_neg (by simp [hc]), if_neg (by simp [List.mem_cons, hc, hm])]

lemma foldl_write_cart_so (f : Nat → RVal) (cids : List Nat) (s0 : Store)
    (pid : String) :
    (cids.foldl (fun s c => storeSet s (RKey.cart c) (f c)) s0)
      (RKey.stockOut pid) = s0 (RKey.stockOut pid) := by
  induction cids generalizing s0 with
  | nil => rfl
  | cons c rest ih =>
      rw [List.foldl_cons, ih, storeSet_lookup, if_neg (by simp)]

lemma foldl_write_load_mem (kvs : List (Nat × LoadCart)) (s0 : Store)
    (cid : Nat) (v : RVal)
    (h : (kvs.foldl (fun s kv => storeSet s (RKey.cart kv.1)
        (RVal.loadCartRec kv.2)) s0) (RKey.cart cid) = some v) :
    (∃ kv ∈ kvs, kv.1 = cid ∧ v = RVal.loadCartRec kv.2) ∨
      s0 (RKey.cart cid) = some v := by
  induction kvs generalizing s0 with
  | nil => exact Or.inr h
  | cons kv rest ih =>
      rw [List.foldl_cons] at h
      rcases ih _ h with ⟨kv', hkv', hfst, hv⟩ | h2
      · exact Or.inl ⟨kv', List.mem_cons_of_mem _ hkv', hfst, hv⟩
      · rw [storeSet_lookup] at h2
        by_cases hc : RKey.cart cid = RKey.cart kv.1
        · rw [if_pos hc] at h2
          have hfst : kv.1 = cid := by
            cases hc
            rfl
          exact Or.inl ⟨kv, List.mem_cons_self _ _, hfst,
            (Option.some.inj h2).symm⟩
        · rw [if_neg hc] at h2
          exact Or.inr h2

lemma foldl_write_load_so (kvs : List (Nat × LoadCart)) (s0 : Store)
    (pid : String) :
    (kvs.foldl (fun s kv => storeSet s (RKey.cart kv.1)
      (RVal.loadCartRec kv.2)) s0) (RKey.stockOut pid)
      = s0 (RKey.stockOut pid) := by
  induction kvs generalizing s0 with
  | nil => rfl
  | cons kv rest ih =>
      rw [List.foldl_cons, ih, storeSet_lookup, if_neg (by simp)]

lemma foldl_write_so_not_mem (sos : List (String × StockOutInfo)) (s0 : Store)
    (pid : String) (h : pid ∉ sos.map Prod.fst) :
    (sos.foldl (fun s kv => storeSet s (RKey.stockOut kv.1)
      (RVal.soRec kv.2)) s0) (RKey.stockOut pid) = s0 (RKey.stockOut pid) := by
  induction sos generalizing s0 with
  | nil => rfl
  | cons kv rest ih =>
      have htail : pid ∉ rest.map Prod.fst := by
        intro hm
        apply h
        rw [List.map_cons]
        exact List.mem_cons_of_mem _ hm
      have hhead : ¬(RKey.stockOut pid = RKey.stockOut kv.1) := by
        intro hc
        apply h
        rw [List.map_cons]
        have hpk : pid = kv.1 := by
          cases hc
          rfl
        rw [hpk]
        exact List.mem_cons_self _ _
      rw [List.foldl_cons, ih _ htail, storeSet_lookup, if_neg hhead]

lemma foldl_write_so_mem (sos : List (String × StockOutInfo)) (s0 : Store)
    (pid : String) (info : StockOutInfo)
    (hnd : (sos.map Prod.fst).Nodup) (hin : (pid, info) ∈ sos) :
    (sos.foldl (fun s kv => storeSet s (RKey.stockOut kv.1)
      (RVal.soRec kv.2)) s0) (RKey.stockOut pid)
      = some (RVal.soRec info) := by
  induction sos generalizing s0 with
  | nil => cases hin
  | cons kv rest ih =>
      rw [List.foldl_cons]
      rcases List.mem_cons.mp hin with heq | hmem
      · obtain rfl : kv = (pid, info) := heq.symm
        have hnotin : pid ∉ rest.map Prod.fst := by
          rw [List.map_cons] at hnd
          exact (List.nodup_cons.mp hnd).1
        rw [foldl_write_so_not_mem _ _ _ hnotin, storeSet_lookup, if_pos rfl]
      · rw [List.map_cons] at hnd
        exact ih _ (List.nodup_cons.mp hnd).2 hmem

lemma sumRevL_append (l : List LoadEvent) (x : LoadEvent) :
    sumRevL (l ++ [x]) = sumRevL l + x.revenue := by
  simp [sumRevL]

lemma sumLostL_append (l : List LoadEvent) (x : LoadEvent) :
    sumLostL (l ++ [x]) = sumLostL l + x.lost_revenue := by
  simp [sumLostL]

lemma loadCartsStep_preserve (carts : List (Nat × LoadCart)) (e : Event)
    (h : ∀ kv ∈ carts, LoadCartOK kv.2) :
    ∀ kv ∈ loadCartsStep carts e, LoadCartOK kv.2 := by
  have key : ∀ (carts' : List (Nat × LoadCart)),
      (∀ kv ∈ carts', LoadCartOK kv.2) →
      ∀ kv ∈ updateAssoc carts' e.cart_id (fun c =>
        { c with
          events := c.events ++ [mkLoadEvent e]
          total_revenue := c.total_revenue + e.revenue
          lost_revenue := c.lost_revenue + e.lost_revenue }),
        LoadCartOK kv.2 := by
    intro carts' h' kv hkv
    unfold updateAssoc at hkv
    obtain ⟨kv0, hkv0, heq⟩ := List.mem_map.mp hkv
    by_cases hc : kv0.1 = e.cart_id
    · rw [if_pos hc] at heq
      subst heq
      obtain ⟨h1, h2⟩ := h' kv0 hkv0
      constructor
      · show kv0.2.total_revenue + e.revenue =
          sumRevL (kv0.2.events ++ [mkLoadEvent e])
        rw [sumRevL_append, h1]
        rfl
      · show kv0.2.lost_revenue + e.lost_revenue =
          sumLostL (kv0.2.events ++ [mkLoadEvent e])
        rw [sumLostL_append, h2]
        rfl
    · rw [if_neg hc] at heq
      subst heq
      exact h' kv0 hkv0
  intro kv hkv
  unfold loadCartsStep at hkv
  by_cases hex : (carts.find? (fun kv => decide (kv.1 = e.cart_id))).isSome
  · rw [if_pos hex] at hkv
    exact key carts h kv hkv
  · rw [if_neg hex] at hkv
    refine key _ ?_ kv hkv
    intro kv' hkv'
    rcases List.mem_append.mp hkv' with h1 | h1
    · exact h _ h1
    · have heq : kv' = (e.cart_id,
          { customer_id := e.customer_id, events := [], total_revenue := 0,
            lost_revenue := 0 }) := by simpa using h1
      subst heq
      exact ⟨by simp [sumRevL], by simp [sumLostL]⟩

lemma load_carts_build_ok (events : List Event) :
    ∀ kv ∈ load_carts_build events, LoadCartOK kv.2 := by
  unfold load_carts_build
  suffices H : ∀ (carts : List (Nat × LoadCart)),
      (∀ kv ∈ carts, LoadCartOK kv.2) →
      ∀ kv ∈ events.foldl loadCartsStep carts, LoadCartOK kv.2 by
    exact H [] (by simp)
  induction events with
  | nil =>
      intro carts h
      simpa using h
  | cons e evs ih =>
      intro carts h
      rw [List.foldl_cons]
      exact ih _ (loadCartsStep_preserve carts e h)

/-! ## Analytics lemmas -/

lemma accumSalesGo_abort (carts : List StoredCart)
    (acc : List (String × Int) × List (String × ℚ))
    (h : ∃ c ∈ carts, c.eventsField = none) :
    accumSalesGo carts acc = none := by
  induction carts generalizing acc with
  | nil =>
      obtain ⟨c, hc, -⟩ := h
      cases hc
  | cons c rest ih =>
      obtain ⟨c', hc', hnone⟩ := h
      rcases List.mem_cons.mp hc' with rfl | hmem
      · simp [accumSalesGo, hnone]
      · unfold accumSalesGo
        cases hcf : c.eventsField with
        | none => rfl
        | some evs => exact ih _ ⟨c', hmem, hnone⟩

lemma lostAccumGo_abort (carts : List StoredCart) (acc : LostAcc)
    (h : ∃ c ∈ carts, c.eventsField = none) :
    lostAccumGo carts acc = none := by
  induction carts generalizing acc with
  | nil =>
      obtain ⟨c, hc, -⟩ := h
      cases hc
  | cons c rest ih =>
      obtain ⟨c', hc', hnone⟩ := h
      rcases List.mem_cons.mp hc' with rfl | hmem
      · simp [lostAccumGo, hnone]
      · unfold lostAccumGo
        cases hcf : c.eventsField with
        | none => rfl
        | some evs => exact ih _ ⟨c', hmem, hnone⟩

lemma lostStep_totals (acc : LostAcc) (e : Event) :
    (lostStep acc e).total_lost = acc.total_lost + e.lost_revenue ∧
    (lostStep acc e).total_revenue = acc.total_revenue + e.revenue := by
  unfold lostStep
  by_cases h : e.lost_revenue > 0 <;> simp [h]

lemma foldl_lostStep_totals (evs : List Event) (acc : LostAcc) :
    (evs.foldl lostStep acc).total_lost = acc.total_lost + sumLost evs ∧
    (evs.foldl lostStep acc).total_revenue = acc.total_revenue + sumRev evs := by
  induction evs generalizing acc with
  | nil => simp [sumLost, sumRev]
  | cons e evs ih =>
      rw [List.foldl_cons]
      obtain ⟨h1, h2⟩ := ih (lostStep acc e)
      obtain ⟨g1, g2⟩ := lostStep_totals acc e
      constructor
      · rw [h1, g1]
        simp only [sumLost, List.map_cons, List.sum_cons]
        ring
      · rw [h2, g2]
        simp only [sumRev, List.map_cons, List.sum_cons]
        ring

lemma lostAccumGo_totals (carts : List StoredCart) (acc0 acc : LostAcc)
    (h : lostAccumGo carts acc0 = some acc) :
    acc.total_lost = acc0.total_lost + sumLost (joinEvents carts) ∧
    acc.total_revenue = acc0.total_revenue + sumRev (joinEvents carts) := by
  induction carts generalizing acc0 with
  | nil =>
      obtain rfl := Option.some.inj h
      simp [joinEvents, sumLost, sumRev]
  | cons c rest ih =>
      unfold lostAccumGo at h
      cases hcf : c.eventsField with
      | none =>
          rw [hcf] at h
          exact Option.noConfusion h
      | some evs =>
          rw [hcf] at h
          obtain ⟨h1, h2⟩ := ih _ h
          obtain ⟨g1, g2⟩ := foldl_lostStep_totals evs acc0
          constructor
          · rw [h1, g1]
            simp only [joinEvents, List.map_cons, List.flatten_cons, hcf,
              Option.getD_some, sumLost, List.map_append, List.sum_append]
            ring
          · rw [h2, g2]
            simp only [joinEvents, List.map_cons, List.flatten_cons, hcf,
              Option.getD_some, sumRev, List.map_append, List.sum_append]
            ring

lemma mem_joinEvents (carts : List StoredCart) (e : Event)
    (h : e ∈ joinEvents carts) :
    ∃ c ∈ carts, ∃ evs, c.eventsField = some evs ∧ e ∈ evs := by
  unfold joinEvents at h
  obtain ⟨l, hl, hel⟩ := List.mem_flatten.mp h
  obtain ⟨c, hc, rfl⟩ := List.mem_map.mp hl
  cases hcf : c.eventsField with
  | none =>
      rw [hcf] at hel
      simp at hel
  | some evs =>
      rw [hcf] at hel
      exact ⟨c, hc, evs, hcf, by simpa using hel⟩

lemma alistLookup_cons' {α : Type} (kv : String × α) (l : List (String × α))
    (pid : String) :
    alistLookup (kv :: l) pid =
      if kv.1 = pid then some kv.2 else alistLookup l pid := by
  unfold alistLookup
  rw [List.find?_cons]
  by_cases h : kv.1 = pid <;> simp [h]

lemma alistLookup_append_single {α : Type} (l : List (String × α))
    (k : String) (v : α) (pid : String) :
    alistLookup (l ++ [(k, v)]) pid =
      (match alistLookup l pid with
       | some x => some x
       | none => if k = pid then some v else none) := by
  unfold alistLookup
  rw [find?_append]
  cases hf : l.find? (fun kv => decide (kv.1 = pid)) with
  | none =>
      by_cases hk : k = pid
      · simp [List.find?_cons, hk]
      · simp [List.find?_cons, hk]
  | some x => simp

lemma alistLookup_map_update {α : Type} (l : List (String × α))
    (k pid : String) (f : α → α) :
    alistLookup (l.map (fun kv =>
        if kv.1 = k then (kv.1, f kv.2) else kv)) pid
      = if k = pid then (alistLookup l k).map f else alistLookup l pid := by
  induction l with
  | nil => by_cases h : k = pid <;> simp [alistLookup, h]
  | cons kv l ih =>
      simp only [List.map_cons]
      by_cases h1 : kv.1 = k
      · by_cases hkp : k = pid
        · simp [alistLookup_cons', ih, h1, hkp]
        · simp [alistLookup_cons', ih, h1, hkp]
      · by_cases hkp : k = pid
        · have h1' : ¬kv.1 = pid := fun hc => h1 (hc.trans hkp.symm)
          rw [hkp] at ih
          simp [alistLookup_cons', ih, h1', hkp]
        · simp [alistLookup_cons', ih, h1, hkp]

lemma alistLookup_some_of_find? {α : Type} (l : List (String × α))
    (k : String)
    (h : (l.find? (fun kv => decide (kv.1 = k))).isSome = true) :
    ∃ en, alistLookup l k = some en := by
  unfold alistLookup
  cases hf : l.find? (fun kv => decide (kv.1 = k)) with
  | none =>
      rw [hf] at h
      cases h
  | some kv => exact ⟨kv.2, rfl⟩

lemma alistLookup_none_of_find? {α : Type} (l : List (String × α))
    (k : String)
    (h : ¬(l.find? (fun kv => decide (kv.1 = k))).isSome = true) :
    alistLookup l k = none := by
  unfold alistLookup
  cases hf : l.find? (fun kv => decide (kv.1 = k)) with
  | none => rfl
  | some kv =>
      rw [hf] at h
      exact absurd rfl h

/-- Each event with positive `lost_revenue` adds its *full* quantity to its
product's `lost_units` counter (creating the entry on first sight); all other
events leave the counter unchanged. -/
lemma lostStep_units (acc : LostAcc) (e : Event) (pid : String) :
    ((alistLookup (lostStep acc e).lost_by_product pid).map
        (fun en => en.lost_units)).getD 0
      = ((alistLookup acc.lost_by_product pid).map
          (fun en => en.lost_units)).getD 0 +
        (if e.product_id = pid ∧ e.lost_revenue > 0 then e.quantity else 0) := by
  by_cases hl : e.lost_revenue > 0
  · have hstep : (lostStep acc e).lost_by_product =
        ((if (acc.lost_by_product.find?
              (fun kv => kv.1 = e.product_id)).isSome
          then acc.lost_by_product
          else acc.lost_by_product ++ [(e.product_id,
            { product_name := e.product_name
              category := mainCategory e.category
              lost_revenue := 0
              lost_units := 0 })]).map
          (fun kv => if kv.1 = e.product_id then (kv.1, bumpLostEntry e kv.2)
            else kv)) := by
      unfold lostStep
      rw [if_pos hl]
    by_cases hfind : (acc.lost_by_product.find?
        (fun kv => decide (kv.1 = e.product_id))).isSome = true
    · obtain ⟨en, hlk⟩ := alistLookup_some_of_find? _ _ hfind
      have hstep2 : (lostStep acc e).lost_by_product =
          acc.lost_by_product.map (fun kv =>
            if kv.1 = e.product_id then (kv.1, bumpLostEntry e kv.2)
            else kv) := by
        rw [hstep, if_pos hfind]
      rw [hstep2, alistLookup_map_update]
      by_cases hp : e.product_id = pid
      · rw [if_pos hp, ← hp, hlk,
          if_pos (show e.product_id = e.product_id ∧ e.lost_revenue > 0 from
            ⟨rfl, hl⟩)]
        rfl
      · rw [if_neg hp,
          if_neg (show ¬(e.product_id = pid ∧ e.lost_revenue > 0) from
            fun hc => hp hc.1)]
        omega
    · have hlk := alistLookup_none_of_find? _ _ hfind
      have hstep2 : (lostStep acc e).lost_by_product =
          (acc.lost_by_product ++ [(e.product_id,
            ({ product_name := e.product_name
               category := mainCategory e.category
               lost_revenue := 0
               lost_units := 0 } : LostEntry))]).map (fun kv =>
            if kv.1 = e.product_id then (kv.1, bumpLostEntry e kv.2)
            else kv) := by
        rw [hstep, if_neg hfind]
      rw [hstep2, alistLookup_map_update]
      by_cases hp : e.product_id = pid
      · rw [if_pos hp, ← hp, alistLookup_append_single, hlk,
          if_pos (show e.product_id = e.product_id from rfl),
          if_pos (show e.product_id = e.product_id ∧ e.lost_revenue > 0 from
            ⟨rfl, hl⟩)]
        rfl
      · rw [if_neg hp,
          if_neg (show ¬(e.product_id = pid ∧ e.lost_revenue > 0) from
            fun hc => hp hc.1),
          alistLookup_append_single]
        cases hlk2 : alistLookup acc.lost_by_product pid with
        | none =>
            simp only [hlk2, if_neg hp]
            rfl
        | some en =>
            simp only [hlk2]
            omega
  · have hstep : (lostStep acc e).lost_by_product = acc.lost_by_product := by
      unfold lostStep
      rw [if_neg hl]
    rw [hstep, if_neg (fun hc => hl hc.2)]
    omega

lemma foldl_lostStep_units (evs : List Event) (acc : LostAcc) (pid : String) :
    ((alistLookup (evs.foldl lostStep acc).lost_by_product pid).map
        (fun en => en.lost_units)).getD 0
      = ((alistLookup acc.lost_by_product pid).map
          (fun en => en.lost_units)).getD 0 + lostUnitsSpec pid evs := by
  induction evs generalizing acc with
  | nil => simp [lostUnitsSpec]
  | cons e evs ih =>
      rw [List.foldl_cons, ih, lostStep_units]
      simp only [lostUnitsSpec, List.map_cons, List.sum_cons]
      omega

lemma lostAccumGo_units (carts : List StoredCart) (acc0 acc : LostAcc)
    (h : lostAccumGo carts acc0 = some acc) (pid : String) :
    ((alistLookup acc.lost_by_product pid).map
        (fun en => en.lost_units)).getD 0
      = ((alistLookup acc0.lost_by_product pid).map
          (fun en => en.lost_units)).getD 0 +
        lostUnitsSpec pid (joinEvents carts) := by
  induction carts generalizing acc0 with
  | nil =>
      obtain rfl := Option.some.inj h
      simp [joinEvents, lostUnitsSpec]
  | cons c rest ih =>
      unfold lostAccumGo at h
      cases hcf : c.eventsField with
      | none =>
          rw [hcf] at h
          exact Option.noConfusion h
      | some evs =>
          rw [hcf] at h
          rw [ih _ h, foldl_lostStep_units]
          simp only [joinEvents, List.map_cons, List.flatten_cons, hcf,
            Option.getD_some, lostUnitsSpec, List.map_append, List.sum_append]
          omega

/-! ## Claim theorems -/

/-- C1 (amended): for every emitted event of type `checkout`,
`partial_checkout` or `stock_out`, `revenue + lost_revenue = unit_price ×
quantity`; a `checkout` carries all revenue and zero loss, a `stock_out` zero
revenue and all loss (each exclusively nonzero when the price is positive),
and a `partial_checkout` splits `price × stock_before` against
`price × (quantity − stock_before)` with the fulfilled and unfulfilled
quantities summing to the requested quantity.  Events of type `add` and
`abandon`, however, carry zero revenue *and* zero lost revenue, so the
identity `revenue + lost_revenue = unit_price × quantity` does not extend to
them. -/
theorem C1_event_accounting (cfg : SimConfig) (num_events : Nat)
    (rng : List Nat) (res : SimState)
    (hres : simulate_cyberday cfg num_events rng = some res) :
    ∀ e ∈ res.events, EventAccounting e := by
  unfold simulate_cyberday at hres
  by_cases hp : cfg.products.isEmpty
  · rw [if_pos hp] at hres
    cases hres
  · rw [if_neg hp] at hres
    obtain rfl : runSim cfg num_events (initState cfg rng) = res :=
      Option.some.inj hres
    exact runSim_eventAccounting cfg num_events _
      (fun e he => absurd he (List.not_mem_nil e))

theorem C1_event_accounting_witness :
    simulate_cyberday aConfig 1 aDraws
        = some (runSim aConfig 1 (initState aConfig aDraws)) ∧
    aEvent ∈ (runSim aConfig 1 (initState aConfig aDraws)).events ∧
    EventAccounting aEvent :=
  ⟨rfl, by decide,
    C1_event_accounting aConfig 1 aDraws _ rfl aEvent (by decide)⟩

/-- C1 (counterexample): in the concrete one-event run whose action draw
selects `add`, the emitted event is not a `partial_checkout`, yet
`revenue + lost_revenue = 0 ≠ 100 = unit_price × quantity`, and neither of
`revenue`/`lost_revenue` is nonzero. -/
theorem C1_counterexample :
    ∃ res, simulate_cyberday aConfig 1 aDraws = some res ∧
      ∃ e ∈ res.events, e.event_type ≠ EventType.partial_checkout ∧
        e.revenue + e.lost_revenue ≠ e.price * (e.quantity : ℚ) ∧
        ¬(e.revenue ≠ 0 ∧ e.lost_revenue = 0) ∧
        ¬(e.revenue = 0 ∧ e.lost_revenue ≠ 0) := by
  refine ⟨_, rfl, aEvent, by decide, by decide, ?_, ?_, ?_⟩
  · show aEvent.revenue + aEvent.lost_revenue ≠ aEvent.price * (aEvent.quantity : ℚ)
    norm_num [aEvent]
  · simp [aEvent]
  · simp [aEvent]

/-- C5: throughout any simulation run over a catalog with non-negative
stocks, every product's stock counter stays non-negative, is monotonically
non-increasing step by step, and at every step `initial_stock − Σ(fulfilled
quantities of that product's checkout/partial_checkout events so far)` equals
the remaining stock — for every random stream. -/
theorem C5_stock_invariants (cfg : SimConfig) (rng : List Nat)
    (hcat : ∀ p ∈ cfg.products, 0 ≤ p.stock) (pid : String) (n : Nat) :
    0 ≤ (runSim cfg n (initState cfg rng)).stock pid ∧
    (runSim cfg (n + 1) (initState cfg rng)).stock pid ≤
      (runSim cfg n (initState cfg rng)).stock pid ∧
    initStock cfg.products pid -
      sumFulfilled pid (runSim cfg n (initState cfg rng)).events
      = (runSim cfg n (initState cfg rng)).stock pid := by
  have key : ∀ m, 0 ≤ (runSim cfg m (initState cfg rng)).stock pid ∧
      (runSim cfg m (initState cfg rng)).stock pid +
        sumFulfilled pid (runSim cfg m (initState cfg rng)).events
        = initStock cfg.products pid := by
    intro m
    induction m with
    | zero =>
        refine ⟨initStock_nonneg _ hcat pid, ?_⟩
        show initStock cfg.products pid + sumFulfilled pid [] = _
        simp [sumFulfilled]
    | succ m ih =>
        rw [runSim_succ]
        obtain ⟨hcons, hle, hnn⟩ := simStep_stock_effect cfg _ pid
        exact ⟨hnn ih.1, by omega⟩
  obtain ⟨h1, h3⟩ := key n
  refine ⟨h1, ?_, by omega⟩
  rw [runSim_succ]
  exact (simStep_stock_effect cfg _ pid).2.1

/-- C2 (amended): the cart events are generated with the *global* `random`
module (no injected random source), and the run start timestamp comes from
the wall clock (`datetime.now()`), which is a second source of nondeterminism
beside the random draws.  Given the same draw stream, catalog (in order),
`num_customers` and `num_events`, two runs agree on everything — remaining
stream, cart counter, stock tracker, events and stock-out records including
all *relative* times — except the absolute timestamps, which are shifted by
the difference of the two start times. -/
theorem C2_determinism_modulo_start (cfg cfg' : SimConfig)
    (hnc : cfg.num_customers = cfg'.num_customers)
    (hps : cfg.products = cfg'.products)
    (num_events : Nat) (rng : List Nat) (res res' : SimState)
    (h : simulate_cyberday cfg num_events rng = some res)
    (h' : simulate_cyberday cfg' num_events rng = some res') :
    ShiftRel cfg.start cfg'.start res res' := by
  unfold simulate_cyberday at h h'
  by_cases hp : cfg.products.isEmpty
  · rw [if_pos hp] at h
    cases h
  · have hp' : ¬cfg'.products.isEmpty = true := by
      rw [← hps]
      exact hp
    rw [if_neg hp] at h
    rw [if_neg hp'] at h'
    obtain rfl := Option.some.inj h
    obtain rfl := Option.some.inj h'
    refine runSim_shiftRel cfg cfg' hnc hps num_events _ _
      ⟨rfl, rfl, ?_, rfl, rfl, 0, ?_, ?_⟩
    · show initStock cfg.products = initStock cfg'.products
      rw [hps]
    · show cfg.start = cfg.start + 0
      omega
    · show cfg'.start = cfg'.start + 0
      omega

theorem C2_determinism_modulo_start_witness :
    ShiftRel wConfig.start w5Config.start
      (runSim wConfig 1 (initState wConfig [0, 0, 0, 0, 0, 0]))
      (runSim w5Config 1 (initState w5Config [0, 0, 0, 0, 0, 0])) :=
  C2_determinism_modulo_start wConfig w5Config rfl rfl 1 [0, 0, 0, 0, 0, 0]
    _ _ rfl rfl

/-- C2 (counterexample): two runs with the same draw stream, the same catalog
in the same order, the same `num_customers` and the same `num_events`, but
different wall-clock start times, produce *different* event sequences (their
absolute `event_time`s differ), refuting bit-for-bit reproducibility from the
seed alone. -/
theorem C2_counterexample :
    ∃ res res', simulate_cyberday wConfig 1 [0, 0, 0, 0, 0, 0] = some res ∧
      simulate_cyberday w5Config 1 [0, 0, 0, 0, 0, 0] = some res' ∧
      res.events ≠ res'.events := by
  refine ⟨_, _, rfl, rfl, fun h => ?_⟩
  have h2 := congrArg (List.map (fun e => e.event_time)) h
  exact absurd h2 (by decide)

/-- C3 (amended): at most one StockoutRecord is created per product (first
writer wins — the stock-out dict's keys are duplicate-free and a later
depletion event never overwrites an entry), and a product's entry is exactly
the record of its *first `stock_out` or `partial_checkout` event* — its
`duration_seconds` is the elapsed time at the first event at which the
simulator observed the product out of (or short of) stock, not at the first
event at which the stock reached exactly zero: a `checkout` that empties the
stock exactly creates no record until some later event hits that product. -/
theorem C3_stockout_first_trigger (cfg : SimConfig) (num_events : Nat)
    (rng : List Nat) (res : SimState)
    (hres : simulate_cyberday cfg num_events rng = some res) :
    ((res.stockOuts.map Prod.fst).Nodup) ∧
    ∀ pid, alistLookup res.stockOuts pid =
      (firstTrigger pid res.events).map (mkSOInfo cfg.start) := by
  unfold simulate_cyberday at hres
  by_cases hp : cfg.products.isEmpty
  · rw [if_pos hp] at hres
    cases hres
  · rw [if_neg hp] at hres
    obtain rfl : runSim cfg num_events (initState cfg rng) = res :=
      Option.some.inj hres
    have h := runSim_stockOut_inv cfg num_events (initState cfg rng)
      (fun pid => rfl) List.nodup_nil
    exact ⟨h.2, h.1⟩

theorem C3_stockout_first_trigger_witness :
    (((runSim wConfig 2 (initState wConfig wDraws)).stockOuts.map
        Prod.fst).Nodup) ∧
    ∀ pid, alistLookup (runSim wConfig 2 (initState wConfig wDraws)).stockOuts
        pid =
      (firstTrigger pid (runSim wConfig 2 (initState wConfig wDraws)).events).map
        (mkSOInfo wConfig.start) :=
  C3_stockout_first_trigger wConfig 2 wDraws _ rfl

/-- C3 (counterexample): in the concrete run `wDraws` on `wConfig`, the
product's stock reaches exactly zero at the first event (a full checkout at
elapsed time 1), but the StockoutRecord is only created at the second event
(a `stock_out` at elapsed time 2), so its `duration_seconds` (2) differs from
the elapsed time at the first event where the stock reached exactly zero (1). -/
theorem C3_counterexample :
    ∃ res, simulate_cyberday wConfig 2 wDraws = some res ∧
      ∃ info, alistLookup res.stockOuts "P1" = some info ∧
        (specFirstZeroEvent "P1" res.events).map
            (fun e => e.event_time - wConfig.start) = some 1 ∧
        info.duration_seconds = 2 ∧
        some info.duration_seconds ≠
          (specFirstZeroEvent "P1" res.events).map
            (fun e => e.event_time - wConfig.start) := by
  refine ⟨_, rfl,
    ⟨{ time := 2, duration_seconds := 2, product_name := "Widget",
       category := "Home|Kitchen" }, by decide, by decide, rfl, by decide⟩⟩

/-- C4 (amended): a stored cart whose event list fails to deserialize makes
the `json.loads` exception escape the aggregation loop into the
function-level `except` handler, so the whole analytics function returns an
*empty* result (`[]` resp. the empty dict) — it does not raise, but it also
does not skip only the malformed cart: the results over the remaining valid
carts are lost for that pass. -/
theorem C4_malformed_aborts_pass (catalog : String → Option Product)
    (carts : List StoredCart) (limit : Nat)
    (h : ∃ c ∈ carts, c.eventsField = none) :
    get_top_selling_products catalog carts limit = [] ∧
    get_lost_revenue_analysis carts = none := by
  constructor
  · unfold get_top_selling_products accumSales
    rw [accumSalesGo_abort carts _ h]
  · unfold get_lost_revenue_analysis lostAccum
    rw [lostAccumGo_abort carts _ h]

theorem C4_malformed_aborts_pass_witness :
    (∃ c ∈ [c8Cart, badCart], c.eventsField = none) ∧
    get_top_selling_products aCatalog [c8Cart, badCart] 10 = [] ∧
    get_lost_revenue_analysis [c8Cart, badCart] = none :=
  ⟨by decide, C4_malformed_aborts_pass aCatalog [c8Cart, badCart] 10
    (by decide)⟩

/-- C4 (counterexample): with one valid cart and one malformed cart, the
analytics functions return empty results, although the same functions applied
to the remaining valid cart alone return non-empty results — so a single
malformed record does abort the whole analytics pass instead of being
skipped. -/
theorem C4_counterexample :
    get_top_selling_products aCatalog [c8Cart, badCart] 10 = [] ∧
    get_top_selling_products aCatalog [c8Cart] 10 ≠ [] ∧
    get_lost_revenue_analysis [c8Cart, badCart] = none ∧
    get_lost_revenue_analysis [c8Cart] ≠ none :=
  ⟨by decide, by decide, by decide, by decide⟩

/-- C8: over stored carts with (element-wise non-negative) revenue and
lost-revenue fields, `get_lost_revenue_analysis` reports totals that are the
sums over all contained events, and
`lost_percentage = lost_total / (lost_total + revenue_total) × 100`, with 0
when both totals are 0. -/
theorem C8_lost_percentage (carts : List StoredCart) (res : LostAnalysis)
    (hres : get_lost_revenue_analysis carts = some res)
    (hnn : ∀ c ∈ carts, ∀ evs, c.eventsField = some evs →
      ∀ e ∈ evs, 0 ≤ e.revenue ∧ 0 ≤ e.lost_revenue) :
    res.total_lost = sumLost (joinEvents carts) ∧
    res.total_revenue = sumRev (joinEvents carts) ∧
    (res.total_lost = 0 ∧ res.total_revenue = 0 → res.lost_percentage = 0) ∧
    (¬(res.total_lost = 0 ∧ res.total_revenue = 0) →
      res.lost_percentage =
        res.total_lost / (res.total_lost + res.total_revenue) * 100) := by
  have hLnn : 0 ≤ sumLost (joinEvents carts) := by
    apply List.sum_nonneg
    intro x hx
    obtain ⟨e, he, rfl⟩ := List.mem_map.mp hx
    obtain ⟨c, hc, evs, hevs, hee⟩ := mem_joinEvents _ _ he
    exact (hnn c hc evs hevs e hee).2
  have hRnn : 0 ≤ sumRev (joinEvents carts) := by
    apply List.sum_nonneg
    intro x hx
    obtain ⟨e, he, rfl⟩ := List.mem_map.mp hx
    obtain ⟨c, hc, evs, hevs, hee⟩ := mem_joinEvents _ _ he
    exact (hnn c hc evs hevs e hee).1
  unfold get_lost_revenue_analysis at hres
  cases hacc : lostAccum carts with
  | none =>
      rw [hacc] at hres
      exact Option.noConfusion hres
  | some acc =>
      rw [hacc] at hres
      obtain rfl := Option.some.inj hres
      obtain ⟨ht1, ht2⟩ := lostAccumGo_totals carts _ acc hacc
      rw [show ((0 : ℚ)) + sumLost (joinEvents carts)
          = sumLost (joinEvents carts) by ring] at ht1
      rw [show ((0 : ℚ)) + sumRev (joinEvents carts)
          = sumRev (joinEvents carts) by ring] at ht2
      refine ⟨ht1, ht2, ?_, ?_⟩
      · rintro ⟨h1, h2⟩
        show (if acc.total_lost + acc.total_revenue > 0 then
          acc.total_lost / (acc.total_lost + acc.total_revenue) * 100
          else 0) = 0
        rw [if_neg ?_]
        show ¬(acc.total_lost + acc.total_revenue > 0)
        have e1 : acc.total_lost = 0 := h1
        have e2 : acc.total_revenue = 0 := h2
        rw [e1, e2]
        norm_num
      · intro hne
        show (if acc.total_lost + acc.total_revenue > 0 then
          acc.total_lost / (acc.total_lost + acc.total_revenue) * 100
          else 0) = acc.total_lost / (acc.total_lost + acc.total_revenue) * 100
        rw [if_pos ?_]
        have hL0 : 0 ≤ acc.total_lost := by rw [ht1]; exact hLnn
        have hR0 : 0 ≤ acc.total_revenue := by rw [ht2]; exact hRnn
        rcases not_and_or.mp hne with h1 | h1
        · have : 0 < acc.total_lost := lt_of_le_of_ne hL0 (Ne.symm h1)
          linarith
        · have : 0 < acc.total_revenue := lt_of_le_of_ne hR0 (Ne.symm h1)
          linarith

theorem C8_lost_percentage_witness :
    ∃ res, get_lost_revenue_analysis c8Carts = some res ∧
      res.total_lost = 100 ∧ res.total_revenue = 900 ∧
      res.lost_percentage = 10 := by
  obtain ⟨res, hres⟩ : ∃ res, get_lost_revenue_analysis c8Carts = some res :=
    ⟨_, rfl⟩
  have hnn : ∀ c ∈ c8Carts, ∀ evs, c.eventsField = some evs →
      ∀ e ∈ evs, 0 ≤ e.revenue ∧ 0 ≤ e.lost_revenue := by
    intro c hc evs hevs e he
    have hcc : c = c8Cart := by simpa [c8Carts] using hc
    subst hcc
    have hevs2 : evs = [r900Event, l100Event] :=
      (Option.some.inj hevs).symm
    subst hevs2
    rcases List.mem_cons.mp he with rfl | he
    · norm_num [r900Event]
    rcases List.mem_cons.mp he with rfl | he
    · norm_num [l100Event]
    · cases he
  obtain ⟨ht1, ht2, -, hf⟩ := C8_lost_percentage c8Carts res hres hnn
  have hL : res.total_lost = 100 := by
    rw [ht1]
    norm_num [joinEvents, c8Carts, c8Cart, sumLost, r900Event, l100Event]
  have hR : res.total_revenue = 900 := by
    rw [ht2]
    norm_num [joinEvents, c8Carts, c8Cart, sumRev, r900Event, l100Event]
  refine ⟨res, hres, hL, hR, ?_⟩
  rw [hf (fun hc => by rw [hL] at hc; norm_num at hc), hL, hR]
  norm_num

/-- C10: in `get_lost_revenue_analysis`, a product's `lost_units` counter
equals the sum of the *full requested quantities* of all its events with
positive `lost_revenue` — for a `partial_checkout` event the fulfilled units
are counted into `lost_units` together with the unfulfilled ones, not only
the unfulfilled part. -/
theorem C10_lost_units_full_quantity (carts : List StoredCart)
    (acc : LostAcc) (pid : String) (entry : LostEntry)
    (hacc : lostAccum carts = some acc)
    (hl : alistLookup acc.lost_by_product pid = some entry) :
    entry.lost_units = lostUnitsSpec pid (joinEvents carts) := by
  have h := lostAccumGo_units carts _ acc hacc pid
  rw [hl] at h
  simpa [alistLookup] using h

theorem C10_lost_units_full_quantity_witness :
    ∃ acc entry, lostAccum c10Carts = some acc ∧
      alistLookup acc.lost_by_product "P1" = some entry ∧
      entry.lost_units = lostUnitsSpec "P1" (joinEvents c10Carts) ∧
      entry.lost_units = 5 ∧
      pEvent.event_type = EventType.partial_checkout ∧
      pEvent.quantity - pEvent.stock_before = 3 :=
  ⟨_, _, rfl, rfl,
    C10_lost_units_full_quantity c10Carts _ "P1" _ rfl rfl,
    by decide, by decide, by decide⟩

/-- C6: both persistence paths store, for every cart record, a
`total_revenue` (and lost-revenue total) that is exactly the sum of the
contained events' `revenue` (resp. `lost_revenue`): recomputing the totals
from a persisted session's event list always reproduces the stored totals. -/
theorem C6_cart_totals :
    (∀ (prior : Store) (events : List Event) (cid : Nat) (rec : CartRecord),
      save_events_to_redis prior events (RKey.cart cid)
          = some (RVal.cartRec rec) →
      rec.total_revenue = sumRev rec.events ∧
      rec.lost_revenue = sumLost rec.events) ∧
    (∀ (prior : Store) (events : List Event) (s : Store) (cid : Nat)
        (rec : LoadCart),
      load_carts_to_redis prior events = some s →
      s (RKey.cart cid) = some (RVal.loadCartRec rec) →
      rec.total_revenue = sumRevL rec.events ∧
      rec.lost_revenue = sumLostL rec.events) := by
  constructor
  · intro prior events cid rec h
    unfold save_events_to_redis at h
    rw [foldl_write_cart] at h
    by_cases hm : cid ∈ firstSeen (events.map (fun e => e.cart_id))
    · rw [if_pos hm] at h
      have hrec : RVal.cartRec (mkCartRecord
          (events.filter (fun e => e.cart_id = cid))) = RVal.cartRec rec :=
        Option.some.inj h
      obtain rfl : mkCartRecord (events.filter (fun e => e.cart_id = cid))
          = rec := by
        cases hrec
        rfl
      obtain ⟨he, hr, hl⟩ := mkCartRecord_totals
        (events.filter (fun e => e.cart_id = cid))
      rw [hr, hl, he]
      exact ⟨rfl, rfl⟩
    · rw [if_neg hm] at h
      exact Option.noConfusion h
  · intro prior events s cid rec h1 h2
    unfold load_carts_to_redis at h1
    by_cases he : events.isEmpty
    · rw [if_pos he] at h1
      exact Option.noConfusion h1
    · rw [if_neg he] at h1
      obtain rfl := Option.some.inj h1
      rcases foldl_write_load_mem _ _ _ _ h2 with ⟨kv, hkv, -, hv⟩ | hflush
      · obtain rfl : kv.2 = rec := by
          cases hv
          rfl
        exact load_carts_build_ok events kv hkv
      · exact Option.noConfusion hflush

theorem C6_cart_totals_witness :
    ∃ (rec : CartRecord) (s : Store) (rec' : LoadCart),
      save_events_to_redis emptyStore [aEvent] (RKey.cart 1)
          = some (RVal.cartRec rec) ∧
      rec.total_revenue = sumRev rec.events ∧
      rec.lost_revenue = sumLost rec.events ∧
      load_carts_to_redis emptyStore [aEvent] = some s ∧
      s (RKey.cart 1) = some (RVal.loadCartRec rec') ∧
      rec'.total_revenue = sumRevL rec'.events ∧
      rec'.lost_revenue = sumLostL rec'.events := by
  obtain ⟨h1a, h1b⟩ := C6_cart_totals.1 emptyStore [aEvent] 1 _ rfl
  obtain ⟨h2a, h2b⟩ := C6_cart_totals.2 emptyStore [aEvent] _ 1 _ rfl rfl
  exact ⟨_, _, _, rfl, h1a, h1b, rfl, rfl, h2a, h2b⟩

/-- C7: both session-persist operations flush the entire session store before
writing (full-replace semantics): the result is independent of the prior
store content, afterwards the store holds exactly one `cart:<cart_id>` record
per cart id of the persisted run (with the grouped events and recomputed
totals), and no other key — in particular no `stock_out:*` key — survives. -/
theorem C7_full_replace :
    (∀ (prior prior' : Store) (events : List Event),
      save_events_to_redis prior events = save_events_to_redis prior' events) ∧
    (∀ (prior : Store) (events : List Event) (cid : Nat),
      save_events_to_redis prior events (RKey.cart cid)
        = if cid ∈ firstSeen (events.map (fun e => e.cart_id))
          then some (RVal.cartRec (mkCartRecord
            (events.filter (fun e => e.cart_id = cid))))
          else none) ∧
    (∀ (prior : Store) (events : List Event) (pid : String),
      save_events_to_redis prior events (RKey.stockOut pid) = none) ∧
    (∀ (prior prior' : Store) (events : List Event),
      load_carts_to_redis prior events = load_carts_to_redis prior' events) ∧
    (∀ (prior : Store) (events : List Event) (s : Store) (pid : String),
      load_carts_to_redis prior events = some s →
      s (RKey.stockOut pid) = none) := by
  refine ⟨fun prior prior' events => rfl, ?_, ?_, fun prior prior' events => rfl,
    ?_⟩
  · intro prior events cid
    unfold save_events_to_redis
    rw [foldl_write_cart]
    by_cases hm : cid ∈ firstSeen (events.map (fun e => e.cart_id))
    · rw [if_pos hm, if_pos hm]
    · rw [if_neg hm, if_neg hm]
      rfl
  · intro prior events pid
    unfold save_events_to_redis
    rw [foldl_write_cart_so]
    rfl
  · intro prior events s pid h
    unfold load_carts_to_redis at h
    by_cases he : events.isEmpty
    · rw [if_pos he] at h
      exact Option.noConfusion h
    · rw [if_neg he] at h
      obtain rfl := Option.some.inj h
      rw [foldl_write_load_so]
      rfl

theorem C7_full_replace_witness :
    ∃ s, load_carts_to_redis emptyStore [aEvent] = some s ∧
      s (RKey.stockOut "P1") = none ∧
      save_events_to_redis emptyStore [aEvent] (RKey.stockOut "P1") = none :=
  ⟨_, rfl, C7_full_replace.2.2.2.2 emptyStore [aEvent] _ "P1" rfl,
    C7_full_replace.2.2.1 emptyStore [aEvent] "P1"⟩

/-- C9: `_save_events_to_redis` flushes the whole key-value database, which
deletes every previously written `stock_out:<product_id>` record; the
stock-out records present after a full `simulate_cyberday` persist survive
only because `_save_stock_out_times_to_redis` runs *after* the cart write in
`persistRun`; a caller that persists sessions after stock-outs (the reverse
order) ends with no stock-out keys at all. -/
theorem C9_flush_kills_stockouts :
    (∀ (prior : Store) (events : List Event) (pid : String),
      save_events_to_redis prior events (RKey.stockOut pid) = none) ∧
    (∀ (prior : Store) (st : SimState) (pid : String) (info : StockOutInfo),
      (st.stockOuts.map Prod.fst).Nodup → (pid, info) ∈ st.stockOuts →
      persistRun prior st (RKey.stockOut pid) = some (RVal.soRec info)) ∧
    (∀ (prior : Store) (events : List Event)
        (sos : List (String × StockOutInfo)) (pid : String),
      save_events_to_redis (save_stock_out_times_to_redis prior sos) events
        (RKey.stockOut pid) = none) := by
  refine ⟨?_, ?_, ?_⟩
  · intro prior events pid
    unfold save_events_to_redis
    rw [foldl_write_cart_so]
    rfl
  · intro prior st pid info hnd hin
    unfold persistRun save_stock_out_times_to_redis
    exact foldl_write_so_mem st.stockOuts _ pid info hnd hin
  · intro prior events sos pid
    unfold save_events_to_redis
    rw [foldl_write_cart_so]
    rfl

theorem C9_flush_kills_stockouts_witness :
    (((runSim wConfig 2 (initState wConfig wDraws)).stockOuts.map
        Prod.fst).Nodup) ∧
    ("P1", ({ time := 2, duration_seconds := 2, product_name := "Widget",
                category := "Home|Kitchen" } : StockOutInfo)) ∈
        (runSim wConfig 2 (initState wConfig wDraws)).stockOuts ∧
    persistRun emptyStore (runSim wConfig 2 (initState wConfig wDraws))
        (RKey.stockOut "P1")
      = some (RVal.soRec { time := 2, duration_seconds := 2,
                           product_name := "Widget",
                           category := "Home|Kitchen" }) :=
  ⟨by decide, by decide,
    C9_flush_kills_stockouts.2.1 emptyStore _ "P1" _ (by decide) (by decide)⟩

theorem C5_stock_invariants_witness :
    (∀ p ∈ wConfig.products, 0 ≤ p.stock) ∧
    (0 ≤ (runSim wConfig 2 (initState wConfig wDraws)).stock "P1" ∧
     (runSim wConfig 3 (initState wConfig wDraws)).stock "P1" ≤
       (runSim wConfig 2 (initState wConfig wDraws)).stock "P1" ∧
     initStock wConfig.products "P1" -
       sumFulfilled "P1" (runSim wConfig 2 (initState wConfig wDraws)).events
       = (runSim wConfig 2 (initState wConfig wDraws)).stock "P1") :=
  ⟨by decide, C5_stock_invariants wConfig wDraws (by decide) "P1" 2⟩

end Cyberday
